import Mathlib

/-!
Shallow embedding of the orbit-insertion direct-transcription scripts
`simultaneous.py` (2D variant) and `simultaneous_3d.py` (3D variant).

States and controls are modelled as total functions `ℕ → ℝ` (the flat
CasADi decision vectors); a constraint row is a real-valued function of
the flat state vector and the flat control vector.  The bound arrays
`lbg`/`ubg` are lists over `EReal` so that `ca.inf` is `⊤`.
-/

noncomputable section

namespace Rocket

/-- A scalar constraint row: a function of the flat state decision vector
and the flat control decision vector. -/
def Row : Type := (ℕ → ℝ) → (ℕ → ℝ) → ℝ

/-- Function `rk4step_u` from both scripts: one step of the explicit classical
Runge-Kutta scheme of order four, with the control held fixed over the
whole step. -/
def rk4step_u {V U : Type*} [AddCommGroup V] [Module ℝ V]
    (ode : V → U → V) (h : ℝ) (x : V) (u : U) : V :=
  let k1 := ode x u
  let k2 := ode (x + (h * 0.5) • k1) u
  let k3 := ode (x + (h * 0.5) • k2) u
  let k4 := ode (x + h • k3) u
  x + (h / 6) • (k1 + (2 : ℝ) • k2 + (2 : ℝ) • k3 + k4)

/-- The CasADi `norm_2` of the first `d` entries of a flat vector. -/
def normR (d : ℕ) (v : ℕ → ℝ) : ℝ :=
  Real.sqrt (∑ c ∈ Finset.range d, v c ^ 2)

/-- The CasADi `dot` of two flat `d`-vectors. -/
def dotR (d : ℕ) (v w : ℕ → ℝ) : ℝ :=
  ∑ c ∈ Finset.range d, v c * w c

/-! ### Module constants shared by the 2D and 3D scripts -/

def grav_const : ℝ := 0.0008

def sun_mass : ℝ := 1000000

def rocket_mass : ℝ := 0.05

/-- Masses `body_masses = (rocket_mass, sun_mass)`: rocket is body 0, the planet
is the last entry. -/
def body_masses : List ℝ := [rocket_mass, sun_mass]

/-- number of bodies in orbit -/
def n_body : ℕ := 1

/-- radius of the planet -/
def surface : ℝ := 100

/-- desired circular orbit height -/
def orbit : ℝ := 190

/-- Orbital velocity `orbital_vel = sqrt(sun_mass * grav_const / orbit)`. -/
def orbital_vel : ℝ := Real.sqrt (sun_mass * grav_const / orbit)

/-! ### Function `ode_general`, 2D script version

The right hand side of `z' = f(z, u)`.  Output index `m < n_body*dimension`
is the velocity block; output index `n_body*dimension + i*dimension + c` is
the acceleration of body `i`, component `c`, accumulated exactly as in the
source: the `j`-loop over the other orbiting bodies (skipping `j = i`),
then the planet term, then — for the actuated body `i = 0` — the thrust
decomposed on components `0` and `1` via `cos`/`sin` of the direction
angle. -/
def ode_general2d (z controls : ℕ → ℝ) (body_masses : List ℝ)
    (n_body dimension : ℕ) : ℕ → ℝ := fun m =>
  if m < n_body * dimension then
    z (n_body * dimension + m)
  else
    let i := (m - n_body * dimension) / dimension
    let c := (m - n_body * dimension) % dimension
    (∑ j ∈ Finset.range n_body,
        if i = j then 0
        else grav_const * body_masses.getD j 0
              / normR dimension
                  (fun t => z (i * dimension + t) - z (j * dimension + t)) ^ 3
              * (z (j * dimension + c) - z (i * dimension + c)))
    + grav_const * body_masses.getLastD 0
        / normR dimension (fun t => z (i * dimension + t) - 0) ^ 3
        * (0 - z (i * dimension + c))
    + (if i = 0 then
        (if c = 0 then controls 0 * Real.cos (controls 1) / body_masses.getD 0 0
         else if c = 1 then controls 0 * Real.sin (controls 1) / body_masses.getD 0 0
         else 0)
       else 0)

/-- Function `ode_general`, 3D script version: identical to the 2D one except that
the thrust of the actuated body is decomposed on components `0`, `1`, `2`
via the spherical angles `(phi, theta) = (controls 1, controls 2)`. -/
def ode_general3d (z controls : ℕ → ℝ) (body_masses : List ℝ)
    (n_body dimension : ℕ) : ℕ → ℝ := fun m =>
  if m < n_body * dimension then
    z (n_body * dimension + m)
  else
    let i := (m - n_body * dimension) / dimension
    let c := (m - n_body * dimension) % dimension
    (∑ j ∈ Finset.range n_body,
        if i = j then 0
        else grav_const * body_masses.getD j 0
              / normR dimension
                  (fun t => z (i * dimension + t) - z (j * dimension + t)) ^ 3
              * (z (j * dimension + c) - z (i * dimension + c)))
    + grav_const * body_masses.getLastD 0
        / normR dimension (fun t => z (i * dimension + t) - 0) ^ 3
        * (0 - z (i * dimension + c))
    + (if i = 0 then
        (if c = 0 then
          controls 0 * Real.sin (controls 1) * Real.cos (controls 2)
            / body_masses.getD 0 0
         else if c = 1 then
          controls 0 * Real.sin (controls 1) * Real.sin (controls 2)
            / body_masses.getD 0 0
         else if c = 2 then controls 0 * Real.cos (controls 1) / body_masses.getD 0 0
         else 0)
       else 0)

/-! ### 2D script (`simultaneous.py`) instance -/

/-- Time horizon (2D). -/
def T2 : ℝ := 700

/-- Number of discrete time points (2D). -/
def N2 : ℕ := 176

/-- Stepsize (2D): `h = T / (N - 1)`. -/
def h2 : ℝ := T2 / ((N2 : ℝ) - 1)

/-- dimension to simulate in (2D script) -/
def dimension2 : ℕ := 2

/-- maximum thrust of the rocket (2D) -/
def thrust_max2 : ℝ := 0.0003

/-- initial velocity magnitude (2D) -/
def v_initial2 : ℝ := 2.412

/-- Vector `x_0_bar` of the 2D script. -/
def x_0_bar2 : List ℝ :=
  [surface * 1.1, 0, v_initial2 * Real.cos (Real.pi / 4),
   v_initial2 * Real.sin (Real.pi / 4)]

/-- Constant `state_dimension = 2 * n_body * dimension` (2D). -/
def state_dimension2 : ℕ := 2 * n_body * dimension2

/-- The fixed-data ode of the 2D script. -/
def ode2 (z controls : ℕ → ℝ) : ℕ → ℝ :=
  ode_general2d z controls body_masses n_body dimension2

/-- The `dynamics` CasADi function of the 2D script: one RK4 step of
`ode2`. -/
def dynamics2 (x u : ℕ → ℝ) (hstep : ℝ) : ℕ → ℝ :=
  rk4step_u ode2 hstep x u

/-- The decision-variable slice for state node `i` (2D). -/
def node2 (i : ℕ) (xv : ℕ → ℝ) : ℕ → ℝ := fun m =>
  xv (i * state_dimension2 + m)

/-- The decision-variable slice for control node `i` (2D). -/
def ctrl2 (i : ℕ) (uv : ℕ → ℝ) : ℕ → ℝ := fun m =>
  uv (dimension2 * i + m)

/-- Row `j` of the initial-condition constraint `x[0:sd] - x_0_bar` (2D). -/
def initRow2 (j : ℕ) : Row := fun xv _ => xv j - x_0_bar2.getD j 0

/-- Row `j` of the dynamics defect constraint
`x_{i+1} - dynamics(x_i, u_i, h)` (2D). -/
def defectRow2 (i j : ℕ) : Row := fun xv uv =>
  xv ((i + 1) * state_dimension2 + j) - dynamics2 (node2 i xv) (ctrl2 i uv) h2 j

/-- The surface-safety row `norm_2(x_i[0:dimension])` at node `i` (2D). -/
def surfRow2 (i : ℕ) : Row := fun xv _ => normR dimension2 (node2 i xv)

/-- The thrust-bound row `u[dimension*i]` (2D). -/
def thrustRow2 (i : ℕ) : Row := fun _ uv => uv (dimension2 * i)

/-- The thrust slew-rate row `|u_{i+1,0} - u_{i,0}|` (2D). -/
def thrustSlewRow2 (i : ℕ) : Row := fun _ uv =>
  |uv ((i + 1) * dimension2) - uv (i * dimension2)|

/-- The angle slew-rate row `|u_{i+1,1} - u_{i,1}|` (2D). -/
def angleSlewRow2 (i : ℕ) : Row := fun _ uv =>
  |uv ((i + 1) * dimension2 + 1) - uv (i * dimension2 + 1)|

/-- Terminal row: `norm_2(x_N[nd:(n+1)d]) - orbital_vel` (2D). -/
def vRow2 : Row := fun xv _ =>
  normR dimension2 (fun c => node2 N2 xv (n_body * dimension2 + c)) - orbital_vel

/-- Terminal row: `dot(velocity_N, position_N)` (2D). -/
def vpRow2 : Row := fun xv _ =>
  dotR dimension2 (fun c => node2 N2 xv (n_body * dimension2 + c)) (node2 N2 xv)

/-- Terminal row: `norm_2(x_N[0:dimension]) - orbit` (2D). -/
def pRow2 : Row := fun xv _ => normR dimension2 (node2 N2 xv) - orbit

/-- The assembled constraint vector of the 2D script, in source order. -/
def constraints2 : List Row :=
  (List.range state_dimension2).map initRow2
    ++ (List.range N2).flatMap (fun i => (List.range state_dimension2).map (defectRow2 i))
    ++ (List.range N2).map surfRow2
    ++ (List.range N2).map thrustRow2
    ++ (List.range (N2 - 1)).map thrustSlewRow2
    ++ (List.range (N2 - 1)).map angleSlewRow2
    ++ [vRow2] ++ [vpRow2] ++ [pRow2]

/-- The lower bound array `lbg` of the 2D script, in source order. -/
def lbg2 : List EReal :=
  List.replicate state_dimension2 0
    ++ (List.range N2).flatMap (fun _ => List.replicate state_dimension2 0)
    ++ (List.range N2).map (fun _ => ((1.1 * surface : ℝ) : EReal))
    ++ List.replicate N2 0
    ++ (List.range (N2 - 1)).map (fun _ => 0)
    ++ (List.range (N2 - 1)).map (fun _ => 0)
    ++ [0] ++ [0] ++ [0]

/-- The upper bound array `ubg` of the 2D script, in source order. -/
def ubg2 : List EReal :=
  List.replicate state_dimension2 0
    ++ (List.range N2).flatMap (fun _ => List.replicate state_dimension2 0)
    ++ (List.range N2).map (fun _ => (⊤ : EReal))
    ++ List.replicate N2 ((thrust_max2 : ℝ) : EReal)
    ++ (List.range (N2 - 1)).map (fun _ => ((h2 * thrust_max2 / 60 : ℝ) : EReal))
    ++ (List.range (N2 - 1)).map (fun _ => ((h2 * Real.pi / 48 : ℝ) : EReal))
    ++ [0] ++ [0] ++ [0]

/-- The discretized cost of the 2D script: `∑ i < N, h * u[dimension*i]`. -/
def cost_function_integral_discrete2 (_x u : ℕ → ℝ) : ℝ :=
  ∑ i ∈ Finset.range N2, h2 * u (dimension2 * i)

/-- The seed velocity magnitude of the 2D initial guess:
`sqrt(0.3^2 + 3^2)` (reassigned `v_initial` in the source). -/
def guess_v_initial2 : ℝ := Real.sqrt (0.3 ^ 2 + 3 ^ 2)

/-- The hard-coded seed state of the 2D initial-guess rollout. -/
def x_initial2 : List ℝ :=
  [surface, 0, guess_v_initial2 * Real.cos (Real.pi / 3),
   guess_v_initial2 * Real.sin (Real.pi / 3)]

/-- Forward rollout of the 2D initial guess: node `0` is the seed state,
node `k+1` is one `dynamics` step from node `k` under control node `k`. -/
def rollout2 (x0 : ℕ → ℝ) (useq : ℕ → ℕ → ℝ) : ℕ → ℕ → ℝ
  | 0 => x0
  | k + 1 => dynamics2 (rollout2 x0 useq k) (useq k) h2

/-- The flattened state part of the 2D initial guess (entry
`state_dimension*k + j` is component `j` of rollout node `k`). -/
def flat2 (x0 : ℕ → ℝ) (useq : ℕ → ℕ → ℝ) : ℕ → ℝ := fun m =>
  rollout2 x0 useq (m / state_dimension2) (m % state_dimension2)

/-- The flattened control part of the 2D initial guess. -/
def uflat2 (useq : ℕ → ℕ → ℝ) : ℕ → ℝ := fun m =>
  useq (m / dimension2) (m % dimension2)

/-! ### 3D script (`simultaneous_3d.py`) instance -/

/-- Time horizon (3D). -/
def T3 : ℝ := 850

/-- Number of discrete time points (3D). -/
def N3 : ℕ := 99

/-- Stepsize (3D): `h = T / (N - 1)`. -/
def h3 : ℝ := T3 / ((N3 : ℝ) - 1)

/-- dimension to simulate in (3D script) -/
def dimension3 : ℕ := 3

/-- maximum thrust of the rocket (3D) -/
def thrust_max3 : ℝ := 0.0004

/-- initial velocity magnitude (3D) -/
def v_initial3 : ℝ := 2.412

/-- horizontal rotation of the initial position (3D) -/
def phi_0_bar : ℝ := 0

/-- vertical rotation of the initial position (3D) -/
def theta_0_bar : ℝ := Real.pi / 2.35

/-- horizontal rotation of the initial velocity (3D) -/
def phi_v_0_bar : ℝ := Real.pi / 8

/-- vertical rotation of the initial velocity (3D) -/
def theta_v_0_bar : ℝ := Real.pi / 2.1

/-- Vector `x_0_bar` of the 3D script. -/
def x_0_bar3 : List ℝ :=
  [1.1 * surface * Real.cos phi_0_bar * Real.sin theta_0_bar,
   1.1 * surface * Real.cos theta_0_bar,
   1.1 * surface * Real.sin phi_0_bar * Real.sin theta_0_bar,
   v_initial3 * Real.cos phi_v_0_bar * Real.sin theta_v_0_bar,
   v_initial3 * Real.cos theta_v_0_bar,
   v_initial3 * Real.sin phi_v_0_bar * Real.sin theta_v_0_bar]

/-- orbit rotation angle about the x axis (3D) -/
def theta_x : ℝ := 0.3

/-- orbit rotation angle about the y axis (3D) -/
def theta_y : ℝ := 0.2

/-- orbit rotation angle about the z axis (3D) -/
def theta_z : ℝ := -0.2

/-- rotation matrix about the x axis (3D) -/
def rot_matrix_x : Matrix (Fin 3) (Fin 3) ℝ :=
  !![1, 0, 0;
     0, Real.cos theta_x, -Real.sin theta_x;
     0, Real.sin theta_x, Real.cos theta_x]

/-- rotation matrix about the y axis (3D) -/
def rot_matrix_y : Matrix (Fin 3) (Fin 3) ℝ :=
  !![Real.cos theta_y, 0, Real.sin theta_y;
     0, 1, 0;
     -Real.sin theta_y, 0, Real.cos theta_y]

/-- rotation matrix about the z axis (3D) -/
def rot_matrix_z : Matrix (Fin 3) (Fin 3) ℝ :=
  !![Real.cos theta_z, -Real.sin theta_z, 0;
     Real.sin theta_z, Real.cos theta_z, 0;
     0, 0, 1]

/-- Matrix `Q = rot_matrix_x @ rot_matrix_y @ rot_matrix_z` (3D). -/
def Q : Matrix (Fin 3) (Fin 3) ℝ := rot_matrix_x * rot_matrix_y * rot_matrix_z

/-- Vector `orbit_normal = Q.T @ [0, 1, 0]` (3D). -/
def orbit_normal : Fin 3 → ℝ := Q.transpose.mulVec ![0, 1, 0]

/-- Constant `state_dimension = 2 * n_body * dimension` (3D). -/
def state_dimension3 : ℕ := 2 * n_body * dimension3

/-- The fixed-data ode of the 3D script. -/
def ode3 (z controls : ℕ → ℝ) : ℕ → ℝ :=
  ode_general3d z controls body_masses n_body dimension3

/-- The `dynamics` CasADi function of the 3D script: one RK4 step of
`ode3`. -/
def dynamics3 (x u : ℕ → ℝ) (hstep : ℝ) : ℕ → ℝ :=
  rk4step_u ode3 hstep x u

/-- The decision-variable slice for state node `i` (3D). -/
def node3 (i : ℕ) (xv : ℕ → ℝ) : ℕ → ℝ := fun m =>
  xv (i * state_dimension3 + m)

/-- The decision-variable slice for control node `i` (3D). -/
def ctrl3 (i : ℕ) (uv : ℕ → ℝ) : ℕ → ℝ := fun m =>
  uv (dimension3 * i + m)

/-- Row `j` of the initial-condition constraint `x[0:sd] - x_0_bar` (3D). -/
def initRow3 (j : ℕ) : Row := fun xv _ => xv j - x_0_bar3.getD j 0

/-- Row `j` of the dynamics defect constraint
`x_{i+1} - dynamics(x_i, u_i, h)` (3D). -/
def defectRow3 (i j : ℕ) : Row := fun xv uv =>
  xv ((i + 1) * state_dimension3 + j) - dynamics3 (node3 i xv) (ctrl3 i uv) h3 j

/-- The surface-safety row `norm_2(x_i[0:dimension])` at node `i` (3D). -/
def surfRow3 (i : ℕ) : Row := fun xv _ => normR dimension3 (node3 i xv)

/-- The thrust-bound row `u[dimension*i]` (3D). -/
def thrustRow3 (i : ℕ) : Row := fun _ uv => uv (dimension3 * i)

/-- The thrust slew-rate row `|u_{i+1,0} - u_{i,0}|` (3D). -/
def thrustSlewRow3 (i : ℕ) : Row := fun _ uv =>
  |uv ((i + 1) * dimension3) - uv (i * dimension3)|

/-- The first angle slew-rate row `|u_{i+1,1} - u_{i,1}|` (3D). -/
def angleSlewRow3 (i : ℕ) : Row := fun _ uv =>
  |uv ((i + 1) * dimension3 + 1) - uv (i * dimension3 + 1)|

/-- The second angle slew-rate row `|u_{i+1,2} - u_{i,2}|` (3D). -/
def angleSlewRow3b (i : ℕ) : Row := fun _ uv =>
  |uv ((i + 1) * dimension3 + 2) - uv (i * dimension3 + 2)|

/-- Terminal row: `norm_2(x_N[nd:(n+1)d]) - orbital_vel` (3D). -/
def vRow3 : Row := fun xv _ =>
  normR dimension3 (fun c => node3 N3 xv (n_body * dimension3 + c)) - orbital_vel

/-- Terminal row: `dot(velocity_N, position_N)` (3D). -/
def vpRow3 : Row := fun xv _ =>
  dotR dimension3 (fun c => node3 N3 xv (n_body * dimension3 + c)) (node3 N3 xv)

/-- Terminal row: `dot(velocity_N, orbit_normal)` (3D). -/
def vnRow3 : Row := fun xv _ =>
  ∑ c : Fin 3, node3 N3 xv (n_body * dimension3 + c) * orbit_normal c

/-- Terminal row: `dot(position_N, orbit_normal)` (3D). -/
def pnRow3 : Row := fun xv _ =>
  ∑ c : Fin 3, node3 N3 xv c * orbit_normal c

/-- Terminal row: `norm_2(x_N[0:dimension]) - orbit` (3D). -/
def pRow3 : Row := fun xv _ => normR dimension3 (node3 N3 xv) - orbit

/-- The assembled constraint vector of the 3D script, in source order. -/
def constraints3 : List Row :=
  (List.range state_dimension3).map initRow3
    ++ (List.range N3).flatMap (fun i => (List.range state_dimension3).map (defectRow3 i))
    ++ (List.range N3).map surfRow3
    ++ (List.range N3).map thrustRow3
    ++ (List.range (N3 - 1)).map thrustSlewRow3
    ++ (List.range (N3 - 1)).map angleSlewRow3
    ++ (List.range (N3 - 1)).map angleSlewRow3b
    ++ [vRow3] ++ [vpRow3] ++ [vnRow3] ++ [pnRow3] ++ [pRow3]

/-- The lower bound array `lbg` of the 3D script, in source order. -/
def lbg3 : List EReal :=
  List.replicate state_dimension3 0
    ++ (List.range N3).flatMap (fun _ => List.replicate state_dimension3 0)
    ++ (List.range N3).map (fun _ => ((1.1 * surface : ℝ) : EReal))
    ++ List.replicate N3 0
    ++ (List.range (N3 - 1)).map (fun _ => 0)
    ++ (List.range (N3 - 1)).map (fun _ => 0)
    ++ (List.range (N3 - 1)).map (fun _ => 0)
    ++ [0] ++ [0] ++ [0] ++ [0] ++ [0]

/-- The upper bound array `ubg` of the 3D script, in source order. -/
def ubg3 : List EReal :=
  List.replicate state_dimension3 0
    ++ (List.range N3).flatMap (fun _ => List.replicate state_dimension3 0)
    ++ (List.range N3).map (fun _ => (⊤ : EReal))
    ++ List.replicate N3 ((thrust_max3 : ℝ) : EReal)
    ++ (List.range (N3 - 1)).map (fun _ => ((h3 * thrust_max3 / 60 : ℝ) : EReal))
    ++ (List.range (N3 - 1)).map (fun _ => ((h3 * Real.pi / 48 : ℝ) : EReal))
    ++ (List.range (N3 - 1)).map (fun _ => ((h3 * Real.pi / 48 : ℝ) : EReal))
    ++ [0] ++ [0] ++ [0] ++ [0] ++ [0]

/-- The discretized cost of the 3D script: `∑ i < N, h * u[dimension*i]`. -/
def cost_function_integral_discrete3 (_x u : ℕ → ℝ) : ℝ :=
  ∑ i ∈ Finset.range N3, h3 * u (dimension3 * i)

/-- The seed velocity magnitude of the 3D initial guess (reassigned
`v_initial` in the source). -/
def guess_v_initial3 : ℝ := 3.01496

/-- The hard-coded seed state of the 3D initial-guess rollout. -/
def x_initial3 : List ℝ :=
  [1.1 * surface * Real.cos phi_0_bar * Real.sin theta_0_bar,
   1.1 * surface * Real.cos theta_0_bar,
   1.1 * surface * Real.sin phi_0_bar * Real.sin theta_0_bar,
   guess_v_initial3 * Real.cos (Real.pi / 4) * Real.sin theta_v_0_bar,
   guess_v_initial3 * Real.cos theta_v_0_bar,
   guess_v_initial3 * Real.sin (Real.pi / 4) * Real.sin theta_v_0_bar]

/-- Forward rollout of the 3D initial guess. -/
def rollout3 (x0 : ℕ → ℝ) (useq : ℕ → ℕ → ℝ) : ℕ → ℕ → ℝ
  | 0 => x0
  | k + 1 => dynamics3 (rollout3 x0 useq k) (useq k) h3

/-- The flattened state part of the 3D initial guess. -/
def flat3 (x0 : ℕ → ℝ) (useq : ℕ → ℕ → ℝ) : ℕ → ℝ := fun m =>
  rollout3 x0 useq (m / state_dimension3) (m % state_dimension3)

/-- The flattened control part of the 3D initial guess. -/
def uflat3 (useq : ℕ → ℕ → ℝ) : ℕ → ℝ := fun m =>
  useq (m / dimension3) (m % dimension3)

/-! ### Acceleration formulas as worded by the specification -/

/-- The acceleration of orbiting body `i`, component `c`, as worded by the
specification for the 2D variant: the sum over the other orbiting bodies
`j ≠ i` of `G·m_j/|p_i − p_j|³·(p_j − p_i)`, plus the primary's
contribution `G·M/|p_i|³·(0 − p_i)`, plus — for the actuated body `i = 0`
only — the thrust vector `(r·cos φ, r·sin φ)` divided by the body's own
mass. -/
def accel_spec2d (z u : ℕ → ℝ) (body_masses : List ℝ) (n d i c : ℕ) : ℝ :=
  (∑ j ∈ (Finset.range n).erase i,
      grav_const * body_masses.getD j 0
        / normR d (fun t => z (i * d + t) - z (j * d + t)) ^ 3
        * (z (j * d + c) - z (i * d + c)))
  + grav_const * body_masses.getLastD 0
      / normR d (fun t => z (i * d + t)) ^ 3 * (0 - z (i * d + c))
  + (if i = 0 then
      (if c = 0 then u 0 * Real.cos (u 1)
       else if c = 1 then u 0 * Real.sin (u 1)
       else 0) / body_masses.getD 0 0
     else 0)

/-- The acceleration of orbiting body `i`, component `c`, as worded by the
specification for the 3D variant: gravity as in 2D, and for the actuated
body the thrust vector `(r·sin φ·cos θ, r·sin φ·sin θ, r·cos φ)` divided
by the body's own mass. -/
def accel_spec3d (z u : ℕ → ℝ) (body_masses : List ℝ) (n d i c : ℕ) : ℝ :=
  (∑ j ∈ (Finset.range n).erase i,
      grav_const * body_masses.getD j 0
        / normR d (fun t => z (i * d + t) - z (j * d + t)) ^ 3
        * (z (j * d + c) - z (i * d + c)))
  + grav_const * body_masses.getLastD 0
      / normR d (fun t => z (i * d + t)) ^ 3 * (0 - z (i * d + c))
  + (if i = 0 then
      (if c = 0 then u 0 * Real.sin (u 1) * Real.cos (u 2)
       else if c = 1 then u 0 * Real.sin (u 1) * Real.sin (u 2)
       else if c = 2 then u 0 * Real.cos (u 1)
       else 0) / body_masses.getD 0 0
     else 0)

/-! ### Generic list helper lemmas -/

lemma length_flatMap_const {α : Type*} (f : ℕ → List α) (L : ℕ)
    (hL : ∀ i, (f i).length = L) (n : ℕ) :
    ((List.range n).flatMap f).length = n * L := by
  induction n with
  | zero => simp
  | succ m ih =>
    rw [List.range_succ, List.flatMap_append, List.length_append, ih]
    simp [hL, Nat.succ_mul]

lemma getElem?_flatMap_const {α : Type*} (f : ℕ → List α) (L : ℕ)
    (hL : ∀ i, (f i).length = L) {n k j : ℕ} (hk : k < n) (hj : j < L) :
    ((List.range n).flatMap f)[L * k + j]? = (f k)[j]? := by
  induction n with
  | zero => omega
  | succ m ih =>
    rw [List.range_succ, List.flatMap_append]
    rcases Nat.lt_or_ge k m with h | h
    · rw [List.getElem?_append_left]
      · exact ih h
      · rw [length_flatMap_const f L hL]
        calc L * k + j < L * k + L := by omega
          _ = L * (k + 1) := (Nat.mul_succ L k).symm
          _ ≤ L * m := Nat.mul_le_mul_left L h
          _ = m * L := Nat.mul_comm L m
    · have hkm : k = m := by omega
      subst hkm
      rw [List.getElem?_append_right]
      · rw [length_flatMap_const f L hL]
        have : L * k + j - k * L = j := by rw [Nat.mul_comm]; omega
        rw [this]
        simp
      · rw [length_flatMap_const f L hL, Nat.mul_comm]; omega

lemma getElem?_map_range {α : Type*} (g : ℕ → α) {n k : ℕ} (hk : k < n) :
    ((List.range n).map g)[k]? = some (g k) := by
  simp [List.getElem?_range hk]

lemma forall₂_replicate {α β : Type*} {R : α → β → Prop} {a : α} {b : β}
    (h : R a b) (n : ℕ) :
    List.Forall₂ R (List.replicate n a) (List.replicate n b) := by
  induction n with
  | zero => exact List.Forall₂.nil
  | succ m ih => exact List.Forall₂.cons h ih

lemma forall₂_append_my {α β : Type*} {R : α → β → Prop}
    {l₁ u₁ : List α} {l₂ u₂ : List β} (h₁ : List.Forall₂ R l₁ l₂)
    (h₂ : List.Forall₂ R u₁ u₂) : List.Forall₂ R (l₁ ++ u₁) (l₂ ++ u₂) := by
  induction h₁ with
  | nil => exact h₂
  | cons hab _ ih => exact List.Forall₂.cons hab ih

lemma forall₂_map_range {α β : Type*} {R : α → β → Prop} (f : ℕ → α)
    (g : ℕ → β) (h : ∀ k, R (f k) (g k)) (n : ℕ) :
    List.Forall₂ R ((List.range n).map f) ((List.range n).map g) := by
  induction n with
  | zero => exact List.Forall₂.nil
  | succ m ih =>
    rw [List.range_succ, List.map_append, List.map_append]
    exact forall₂_append_my ih (List.Forall₂.cons (h m) List.Forall₂.nil)

lemma forall₂_flatMap_range {α β : Type*} {R : α → β → Prop}
    (f : ℕ → List α) (g : ℕ → List β)
    (h : ∀ k, List.Forall₂ R (f k) (g k)) (n : ℕ) :
    List.Forall₂ R ((List.range n).flatMap f) ((List.range n).flatMap g) := by
  induction n with
  | zero => exact List.Forall₂.nil
  | succ m ih =>
    rw [List.range_succ, List.flatMap_append, List.flatMap_append]
    refine forall₂_append_my ih ?_
    simpa using h m

/-! ### Numeric and length facts -/

lemma sd2_eq : state_dimension2 = 4 := rfl

lemma sd3_eq : state_dimension3 = 6 := rfl

lemma h2_pos : 0 < h2 := by
  rw [h2, T2, N2]; norm_num

lemma h3_pos : 0 < h3 := by
  rw [h3, T3, N3]; norm_num

lemma defectSeg2_length :
    ((List.range N2).flatMap
      (fun i => (List.range state_dimension2).map (defectRow2 i))).length = 704 := by
  rw [length_flatMap_const _ 4 (fun i => by simp [sd2_eq]) N2]; rfl

lemma defectSeg3_length :
    ((List.range N3).flatMap
      (fun i => (List.range state_dimension3).map (defectRow3 i))).length = 594 := by
  rw [length_flatMap_const _ 6 (fun i => by simp [sd3_eq]) N3]; rfl

lemma zeroSeg2_length :
    ((List.range N2).flatMap
      (fun _ : ℕ => List.replicate state_dimension2 (0 : EReal))).length = 704 := by
  rw [length_flatMap_const _ 4 (fun i => by simp [sd2_eq]) N2]; rfl

lemma zeroSeg3_length :
    ((List.range N3).flatMap
      (fun _ : ℕ => List.replicate state_dimension3 (0 : EReal))).length = 594 := by
  rw [length_flatMap_const _ 6 (fun i => by simp [sd3_eq]) N3]; rfl

lemma constraints2_length : constraints2.length = 1413 := by
  rw [constraints2]
  simp only [List.length_append]
  rw [defectSeg2_length]
  simp [sd2_eq, N2]

lemma constraints3_length : constraints3.length = 1097 := by
  rw [constraints3]
  simp only [List.length_append]
  rw [defectSeg3_length]
  simp [sd3_eq, N3]

lemma lbg2_length : lbg2.length = 1413 := by
  rw [lbg2]
  simp only [List.length_append]
  rw [zeroSeg2_length]
  simp only [List.length_map, List.length_range, List.length_replicate,
    List.length_singleton, sd2_eq, N2]

lemma ubg2_length : ubg2.length = 1413 := by
  rw [ubg2]
  simp only [List.length_append]
  rw [zeroSeg2_length]
  simp only [List.length_map, List.length_range, List.length_replicate,
    List.length_singleton, sd2_eq, N2]

lemma lbg3_length : lbg3.length = 1097 := by
  rw [lbg3]
  simp only [List.length_append]
  rw [zeroSeg3_length]
  simp only [List.length_map, List.length_range, List.length_replicate,
    List.length_singleton, sd3_eq, N3]

lemma ubg3_length : ubg3.length = 1097 := by
  rw [ubg3]
  simp only [List.length_append]
  rw [zeroSeg3_length]
  simp only [List.length_map, List.length_range, List.length_replicate,
    List.length_singleton, sd3_eq, N3]

lemma flatMap_replicate_const {α : Type*} (c : α) (L n : ℕ) :
    (List.range n).flatMap (fun _ => List.replicate L c) =
      List.replicate (n * L) c := by
  induction n with
  | zero => simp
  | succ m ih =>
    rw [List.range_succ, List.flatMap_append, ih, Nat.succ_mul,
      List.replicate_add]
    simp

lemma getElem?_map_range_if {α : Type*} (g : ℕ → α) (n k : ℕ) :
    ((List.range n).map g)[k]? = if k < n then some (g k) else none := by
  by_cases h : k < n
  · rw [if_pos h]
    exact getElem?_map_range g h
  · rw [if_neg h]
    rw [List.getElem?_eq_none]
    simp only [List.length_map, List.length_range]
    omega

/-- Value of `lbg` of the 2D script at each row index. -/
lemma lbg2_getElem?_eq {i : ℕ} (hi : i < 1413) :
    lbg2[i]? = some (if 708 ≤ i ∧ i < 884 then ((1.1 * surface : ℝ) : EReal)
      else 0) := by
  rw [lbg2]
  simp only [sd2_eq, N2]
  rw [flatMap_replicate_const]
  simp only [List.getElem?_append, List.length_append, List.length_replicate,
    List.length_map, List.length_range, List.length_singleton,
    List.getElem?_replicate, getElem?_map_range_if, List.getElem?_cons,
    List.getElem?_nil]
  split_ifs <;> first | rfl | (exfalso; omega)

/-- Value of `ubg` of the 2D script at each row index. -/
lemma ubg2_getElem?_eq {i : ℕ} (hi : i < 1413) :
    ubg2[i]? = some (if 708 ≤ i ∧ i < 884 then (⊤ : EReal)
      else if 884 ≤ i ∧ i < 1060 then ((thrust_max2 : ℝ) : EReal)
      else if 1060 ≤ i ∧ i < 1235 then ((h2 * thrust_max2 / 60 : ℝ) : EReal)
      else if 1235 ≤ i ∧ i < 1410 then ((h2 * Real.pi / 48 : ℝ) : EReal)
      else 0) := by
  rw [ubg2]
  simp only [sd2_eq, N2]
  rw [flatMap_replicate_const]
  simp only [List.getElem?_append, List.length_append, List.length_replicate,
    List.length_map, List.length_range, List.length_singleton,
    List.getElem?_replicate, getElem?_map_range_if, List.getElem?_cons,
    List.getElem?_nil]
  split_ifs <;> first | rfl | (exfalso; omega)

/-- Rows `i < 600` of `lbg3` (initial-condition and defect rows) have bound `0`. -/
lemma lbg3_getElem?_lt600 {i : ℕ} (hi : i < 600) :
    lbg3[i]? = some 0 := by
  rw [lbg3]
  simp only [sd3_eq, N3]
  rw [flatMap_replicate_const, ← List.replicate_add]
  rw [List.getElem?_append_left (by
      simp only [List.length_append, List.length_replicate, List.length_map,
        List.length_range, List.length_singleton] <;> omega)]
  rw [List.getElem?_append_left (by
      simp only [List.length_append, List.length_replicate, List.length_map,
        List.length_range, List.length_singleton] <;> omega)]
  rw [List.getElem?_append_left (by
      simp only [List.length_append, List.length_replicate, List.length_map,
        List.length_range, List.length_singleton] <;> omega)]
  rw [List.getElem?_append_left (by
      simp only [List.length_append, List.length_replicate, List.length_map,
        List.length_range, List.length_singleton] <;> omega)]
  rw [List.getElem?_append_left (by
      simp only [List.length_append, List.length_replicate, List.length_map,
        List.length_range, List.length_singleton] <;> omega)]
  rw [List.getElem?_append_left (by
      simp only [List.length_append, List.length_replicate, List.length_map,
        List.length_range, List.length_singleton] <;> omega)]
  rw [List.getElem?_append_left (by
      simp only [List.length_append, List.length_replicate, List.length_map,
        List.length_range, List.length_singleton] <;> omega)]
  rw [List.getElem?_append_left (by
      simp only [List.length_append, List.length_replicate, List.length_map,
        List.length_range, List.length_singleton] <;> omega)]
  rw [List.getElem?_append_left (by
      simp only [List.length_append, List.length_replicate, List.length_map,
        List.length_range, List.length_singleton] <;> omega)]
  rw [List.getElem?_append_left (by
      simp only [List.length_append, List.length_replicate, List.length_map,
        List.length_range, List.length_singleton] <;> omega)]
  rw [List.getElem?_replicate_of_lt (by omega)]
/-- Rows `i < 600` of `ubg3` (initial-condition and defect rows) have bound `0`. -/
lemma ubg3_getElem?_lt600 {i : ℕ} (hi : i < 600) :
    ubg3[i]? = some 0 := by
  rw [ubg3]
  simp only [sd3_eq, N3]
  rw [flatMap_replicate_const, ← List.replicate_add]
  rw [List.getElem?_append_left (by
      simp only [List.length_append, List.length_replicate, List.length_map,
        List.length_range, List.length_singleton] <;> omega)]
  rw [List.getElem?_append_left (by
      simp only [List.length_append, List.length_replicate, List.length_map,
        List.length_range, List.length_singleton] <;> omega)]
  rw [List.getElem?_append_left (by
      simp only [List.length_append, List.length_replicate, List.length_map,
        List.length_range, List.length_singleton] <;> omega)]
  rw [List.getElem?_append_left (by
      simp only [List.length_append, List.length_replicate, List.length_map,
        List.length_range, List.length_singleton] <;> omega)]
  rw [List.getElem?_append_left (by
      simp only [List.length_append, List.length_replicate, List.length_map,
        List.length_range, List.length_singleton] <;> omega)]
  rw [List.getElem?_append_left (by
      simp only [List.length_append, List.length_replicate, List.length_map,
        List.length_range, List.length_singleton] <;> omega)]
  rw [List.getElem?_append_left (by
      simp only [List.length_append, List.length_replicate, List.length_map,
        List.length_range, List.length_singleton] <;> omega)]
  rw [List.getElem?_append_left (by
      simp only [List.length_append, List.length_replicate, List.length_map,
        List.length_range, List.length_singleton] <;> omega)]
  rw [List.getElem?_append_left (by
      simp only [List.length_append, List.length_replicate, List.length_map,
        List.length_range, List.length_singleton] <;> omega)]
  rw [List.getElem?_append_left (by
      simp only [List.length_append, List.length_replicate, List.length_map,
        List.length_range, List.length_singleton] <;> omega)]
  rw [List.getElem?_replicate_of_lt (by omega)]
/-- Surface-safety rows `600 + k`, `k < 99`, of `lbg3`. -/
lemma lbg3_getElem?_surf {k : ℕ} (hk : k < 99) :
    lbg3[600 + k]? = some (((1.1 * surface : ℝ) : EReal)) := by
  rw [lbg3]
  simp only [sd3_eq, N3]
  rw [flatMap_replicate_const, ← List.replicate_add]
  rw [List.getElem?_append_left (by
      simp only [List.length_append, List.length_replicate, List.length_map,
        List.length_range, List.length_singleton] <;> omega)]
  rw [List.getElem?_append_left (by
      simp only [List.length_append, List.length_replicate, List.length_map,
        List.length_range, List.length_singleton] <;> omega)]
  rw [List.getElem?_append_left (by
      simp only [List.length_append, List.length_replicate, List.length_map,
        List.length_range, List.length_singleton] <;> omega)]
  rw [List.getElem?_append_left (by
      simp only [List.length_append, List.length_replicate, List.length_map,
        List.length_range, List.length_singleton] <;> omega)]
  rw [List.getElem?_append_left (by
      simp only [List.length_append, List.length_replicate, List.length_map,
        List.length_range, List.length_singleton] <;> omega)]
  rw [List.getElem?_append_left (by
      simp only [List.length_append, List.length_replicate, List.length_map,
        List.length_range, List.length_singleton] <;> omega)]
  rw [List.getElem?_append_left (by
      simp only [List.length_append, List.length_replicate, List.length_map,
        List.length_range, List.length_singleton] <;> omega)]
  rw [List.getElem?_append_left (by
      simp only [List.length_append, List.length_replicate, List.length_map,
        List.length_range, List.length_singleton] <;> omega)]
  rw [List.getElem?_append_left (by
      simp only [List.length_append, List.length_replicate, List.length_map,
        List.length_range, List.length_singleton] <;> omega)]
  rw [List.getElem?_append_right (by
      simp only [List.length_append, List.length_replicate, List.length_map,
        List.length_range, List.length_singleton] <;> omega)]
  rw [getElem?_map_range _ (by
      simp only [List.length_append, List.length_replicate, List.length_map,
        List.length_range, List.length_singleton] <;> omega)]
/-- Surface-safety rows `600 + k`, `k < 99`, of `ubg3`. -/
lemma ubg3_getElem?_surf {k : ℕ} (hk : k < 99) :
    ubg3[600 + k]? = some ((⊤ : EReal)) := by
  rw [ubg3]
  simp only [sd3_eq, N3]
  rw [flatMap_replicate_const, ← List.replicate_add]
  rw [List.getElem?_append_left (by
      simp only [List.length_append, List.length_replicate, List.length_map,
        List.length_range, List.length_singleton] <;> omega)]
  rw [List.getElem?_append_left (by
      simp only [List.length_append, List.length_replicate, List.length_map,
        List.length_range, List.length_singleton] <;> omega)]
  rw [List.getElem?_append_left (by
      simp only [List.length_append, List.length_replicate, List.length_map,
        List.length_range, List.length_singleton] <;> omega)]
  rw [List.getElem?_append_left (by
      simp only [List.length_append, List.length_replicate, List.length_map,
        List.length_range, List.length_singleton] <;> omega)]
  rw [List.getElem?_append_left (by
      simp only [List.length_append, List.length_replicate, List.length_map,
        List.length_range, List.length_singleton] <;> omega)]
  rw [List.getElem?_append_left (by
      simp only [List.length_append, List.length_replicate, List.length_map,
        List.length_range, List.length_singleton] <;> omega)]
  rw [List.getElem?_append_left (by
      simp only [List.length_append, List.length_replicate, List.length_map,
        List.length_range, List.length_singleton] <;> omega)]
  rw [List.getElem?_append_left (by
      simp only [List.length_append, List.length_replicate, List.length_map,
        List.length_range, List.length_singleton] <;> omega)]
  rw [List.getElem?_append_left (by
      simp only [List.length_append, List.length_replicate, List.length_map,
        List.length_range, List.length_singleton] <;> omega)]
  rw [List.getElem?_append_right (by
      simp only [List.length_append, List.length_replicate, List.length_map,
        List.length_range, List.length_singleton] <;> omega)]
  rw [getElem?_map_range _ (by
      simp only [List.length_append, List.length_replicate, List.length_map,
        List.length_range, List.length_singleton] <;> omega)]
lemma getElem?_append_singleton {α : Type*} (l : List α) (a : α) {i : ℕ}
    (hi : i = l.length) : (l ++ [a])[i]? = some a := by
  subst hi
  rw [List.getElem?_append_right (Nat.le_refl _), Nat.sub_self,
    List.getElem?_cons_zero]

/-- The five terminal rows `1092`–`1096` of `lbg3` have bound `0`. -/
lemma lbg3_getElem?_term :
    lbg3[1092]? = some 0 ∧ lbg3[1093]? = some 0 ∧ lbg3[1094]? = some 0 ∧
    lbg3[1095]? = some 0 ∧ lbg3[1096]? = some 0 := by
  refine ⟨?_, ?_, ?_, ?_, ?_⟩
  · rw [lbg3]
    simp only [sd3_eq, N3]
    rw [flatMap_replicate_const, ← List.replicate_add]
    rw [List.getElem?_append_left (by
        simp only [List.length_append, List.length_replicate, List.length_map,
          List.length_range, List.length_singleton] <;> omega)]
    rw [List.getElem?_append_left (by
        simp only [List.length_append, List.length_replicate, List.length_map,
          List.length_range, List.length_singleton] <;> omega)]
    rw [List.getElem?_append_left (by
        simp only [List.length_append, List.length_replicate, List.length_map,
          List.length_range, List.length_singleton] <;> omega)]
    rw [List.getElem?_append_left (by
        simp only [List.length_append, List.length_replicate, List.length_map,
          List.length_range, List.length_singleton] <;> omega)]
    rw [getElem?_append_singleton _ _ (by
        simp only [List.length_append, List.length_replicate, List.length_map,
          List.length_range, List.length_singleton] <;> omega)]
  · rw [lbg3]
    simp only [sd3_eq, N3]
    rw [flatMap_replicate_const, ← List.replicate_add]
    rw [List.getElem?_append_left (by
        simp only [List.length_append, List.length_replicate, List.length_map,
          List.length_range, List.length_singleton] <;> omega)]
    rw [List.getElem?_append_left (by
        simp only [List.length_append, List.length_replicate, List.length_map,
          List.length_range, List.length_singleton] <;> omega)]
    rw [List.getElem?_append_left (by
        simp only [List.length_append, List.length_replicate, List.length_map,
          List.length_range, List.length_singleton] <;> omega)]
    rw [getElem?_append_singleton _ _ (by
        simp only [List.length_append, List.length_replicate, List.length_map,
          List.length_range, List.length_singleton] <;> omega)]
  · rw [lbg3]
    simp only [sd3_eq, N3]
    rw [flatMap_replicate_const, ← List.replicate_add]
    rw [List.getElem?_append_left (by
        simp only [List.length_append, List.length_replicate, List.length_map,
          List.length_range, List.length_singleton] <;> omega)]
    rw [List.getElem?_append_left (by
        simp only [List.length_append, List.length_replicate, List.length_map,
          List.length_range, List.length_singleton] <;> omega)]
    rw [getElem?_append_singleton _ _ (by
        simp only [List.length_append, List.length_replicate, List.length_map,
          List.length_range, List.length_singleton] <;> omega)]
  · rw [lbg3]
    simp only [sd3_eq, N3]
    rw [flatMap_replicate_const, ← List.replicate_add]
    rw [List.getElem?_append_left (by
        simp only [List.length_append, List.length_replicate, List.length_map,
          List.length_range, List.length_singleton] <;> omega)]
    rw [getElem?_append_singleton _ _ (by
        simp only [List.length_append, List.length_replicate, List.length_map,
          List.length_range, List.length_singleton] <;> omega)]
  · rw [lbg3]
    simp only [sd3_eq, N3]
    rw [flatMap_replicate_const, ← List.replicate_add]
    rw [getElem?_append_singleton _ _ (by
        simp only [List.length_append, List.length_replicate, List.length_map,
          List.length_range, List.length_singleton] <;> omega)]

/-- The five terminal rows `1092`–`1096` of `ubg3` have bound `0`. -/
lemma ubg3_getElem?_term :
    ubg3[1092]? = some 0 ∧ ubg3[1093]? = some 0 ∧ ubg3[1094]? = some 0 ∧
    ubg3[1095]? = some 0 ∧ ubg3[1096]? = some 0 := by
  refine ⟨?_, ?_, ?_, ?_, ?_⟩
  · rw [ubg3]
    simp only [sd3_eq, N3]
    rw [flatMap_replicate_const, ← List.replicate_add]
    rw [List.getElem?_append_left (by
        simp only [List.length_append, List.length_replicate, List.length_map,
          List.length_range, List.length_singleton] <;> omega)]
    rw [List.getElem?_append_left (by
        simp only [List.length_append, List.length_replicate, List.length_map,
          List.length_range, List.length_singleton] <;> omega)]
    rw [List.getElem?_append_left (by
        simp only [List.length_append, List.length_replicate, List.length_map,
          List.length_range, List.length_singleton] <;> omega)]
    rw [List.getElem?_append_left (by
        simp only [List.length_append, List.length_replicate, List.length_map,
          List.length_range, List.length_singleton] <;> omega)]
    rw [getElem?_append_singleton _ _ (by
        simp only [List.length_append, List.length_replicate, List.length_map,
          List.length_range, List.length_singleton] <;> omega)]
  · rw [ubg3]
    simp only [sd3_eq, N3]
    rw [flatMap_replicate_const, ← List.replicate_add]
    rw [List.getElem?_append_left (by
        simp only [List.length_append, List.length_replicate, List.length_map,
          List.length_range, List.length_singleton] <;> omega)]
    rw [List.getElem?_append_left (by
        simp only [List.length_append, List.length_replicate, List.length_map,
          List.length_range, List.length_singleton] <;> omega)]
    rw [List.getElem?_append_left (by
        simp only [List.length_append, List.length_replicate, List.length_map,
          List.length_range, List.length_singleton] <;> omega)]
    rw [getElem?_append_singleton _ _ (by
        simp only [List.length_append, List.length_replicate, List.length_map,
          List.length_range, List.length_singleton] <;> omega)]
  · rw [ubg3]
    simp only [sd3_eq, N3]
    rw [flatMap_replicate_const, ← List.replicate_add]
    rw [List.getElem?_append_left (by
        simp only [List.length_append, List.length_replicate, List.length_map,
          List.length_range, List.length_singleton] <;> omega)]
    rw [List.getElem?_append_left (by
        simp only [List.length_append, List.length_replicate, List.length_map,
          List.length_range, List.length_singleton] <;> omega)]
    rw [getElem?_append_singleton _ _ (by
        simp only [List.length_append, List.length_replicate, List.length_map,
          List.length_range, List.length_singleton] <;> omega)]
  · rw [ubg3]
    simp only [sd3_eq, N3]
    rw [flatMap_replicate_const, ← List.replicate_add]
    rw [List.getElem?_append_left (by
        simp only [List.length_append, List.length_replicate, List.length_map,
          List.length_range, List.length_singleton] <;> omega)]
    rw [getElem?_append_singleton _ _ (by
        simp only [List.length_append, List.length_replicate, List.length_map,
          List.length_range, List.length_singleton] <;> omega)]
  · rw [ubg3]
    simp only [sd3_eq, N3]
    rw [flatMap_replicate_const, ← List.replicate_add]
    rw [getElem?_append_singleton _ _ (by
        simp only [List.length_append, List.length_replicate, List.length_map,
          List.length_range, List.length_singleton] <;> omega)]

lemma defectSeg2_length_num :
    ((List.range 176).flatMap
      (fun i => (List.range 4).map (defectRow2 i))).length = 704 := by
  rw [length_flatMap_const _ 4 (fun i => by simp) 176]

lemma defectSeg3_length_num :
    ((List.range 99).flatMap
      (fun i => (List.range 6).map (defectRow3 i))).length = 594 := by
  rw [length_flatMap_const _ 6 (fun i => by simp) 99]

/-- Rows `j < 4` of the 2D constraint vector are the initial-condition rows. -/
lemma constraints2_getElem?_init {j : ℕ} (hj : j < 4) :
    constraints2[j]? = some (initRow2 j) := by
  rw [constraints2]
  simp only [sd2_eq, N2]
  rw [List.getElem?_append_left (by
      simp only [List.length_append, List.length_map, List.length_range,
        List.length_singleton, defectSeg2_length_num] <;> omega)]
  rw [List.getElem?_append_left (by
      simp only [List.length_append, List.length_map, List.length_range,
        List.length_singleton, defectSeg2_length_num] <;> omega)]
  rw [List.getElem?_append_left (by
      simp only [List.length_append, List.length_map, List.length_range,
        List.length_singleton, defectSeg2_length_num] <;> omega)]
  rw [List.getElem?_append_left (by
      simp only [List.length_append, List.length_map, List.length_range,
        List.length_singleton, defectSeg2_length_num] <;> omega)]
  rw [List.getElem?_append_left (by
      simp only [List.length_append, List.length_map, List.length_range,
        List.length_singleton, defectSeg2_length_num] <;> omega)]
  rw [List.getElem?_append_left (by
      simp only [List.length_append, List.length_map, List.length_range,
        List.length_singleton, defectSeg2_length_num] <;> omega)]
  rw [List.getElem?_append_left (by
      simp only [List.length_append, List.length_map, List.length_range,
        List.length_singleton, defectSeg2_length_num] <;> omega)]
  rw [List.getElem?_append_left (by
      simp only [List.length_append, List.length_map, List.length_range,
        List.length_singleton, defectSeg2_length_num] <;> omega)]
  rw [getElem?_map_range _ hj]

/-- Rows `j < 6` of the 3D constraint vector are the initial-condition rows. -/
lemma constraints3_getElem?_init {j : ℕ} (hj : j < 6) :
    constraints3[j]? = some (initRow3 j) := by
  rw [constraints3]
  simp only [sd3_eq, N3]
  rw [List.getElem?_append_left (by
      simp only [List.length_append, List.length_map, List.length_range,
        List.length_singleton, defectSeg3_length_num] <;> omega)]
  rw [List.getElem?_append_left (by
      simp only [List.length_append, List.length_map, List.length_range,
        List.length_singleton, defectSeg3_length_num] <;> omega)]
  rw [List.getElem?_append_left (by
      simp only [List.length_append, List.length_map, List.length_range,
        List.length_singleton, defectSeg3_length_num] <;> omega)]
  rw [List.getElem?_append_left (by
      simp only [List.length_append, List.length_map, List.length_range,
        List.length_singleton, defectSeg3_length_num] <;> omega)]
  rw [List.getElem?_append_left (by
      simp only [List.length_append, List.length_map, List.length_range,
        List.length_singleton, defectSeg3_length_num] <;> omega)]
  rw [List.getElem?_append_left (by
      simp only [List.length_append, List.length_map, List.length_range,
        List.length_singleton, defectSeg3_length_num] <;> omega)]
  rw [List.getElem?_append_left (by
      simp only [List.length_append, List.length_map, List.length_range,
        List.length_singleton, defectSeg3_length_num] <;> omega)]
  rw [List.getElem?_append_left (by
      simp only [List.length_append, List.length_map, List.length_range,
        List.length_singleton, defectSeg3_length_num] <;> omega)]
  rw [List.getElem?_append_left (by
      simp only [List.length_append, List.length_map, List.length_range,
        List.length_singleton, defectSeg3_length_num] <;> omega)]
  rw [List.getElem?_append_left (by
      simp only [List.length_append, List.length_map, List.length_range,
        List.length_singleton, defectSeg3_length_num] <;> omega)]
  rw [List.getElem?_append_left (by
      simp only [List.length_append, List.length_map, List.length_range,
        List.length_singleton, defectSeg3_length_num] <;> omega)]
  rw [getElem?_map_range _ hj]

/-- Row `4 + (4k + j)` of the 2D constraint vector is defect row `(k, j)`. -/
lemma constraints2_getElem?_defect {k j : ℕ} (hk : k < 176) (hj : j < 4) :
    constraints2[4 + (4 * k + j)]? = some (defectRow2 k j) := by
  rw [constraints2]
  simp only [sd2_eq, N2]
  rw [List.getElem?_append_left (by
      simp only [List.length_append, List.length_map, List.length_range,
        List.length_singleton, defectSeg2_length_num] <;> omega)]
  rw [List.getElem?_append_left (by
      simp only [List.length_append, List.length_map, List.length_range,
        List.length_singleton, defectSeg2_length_num] <;> omega)]
  rw [List.getElem?_append_left (by
      simp only [List.length_append, List.length_map, List.length_range,
        List.length_singleton, defectSeg2_length_num] <;> omega)]
  rw [List.getElem?_append_left (by
      simp only [List.length_append, List.length_map, List.length_range,
        List.length_singleton, defectSeg2_length_num] <;> omega)]
  rw [List.getElem?_append_left (by
      simp only [List.length_append, List.length_map, List.length_range,
        List.length_singleton, defectSeg2_length_num] <;> omega)]
  rw [List.getElem?_append_left (by
      simp only [List.length_append, List.length_map, List.length_range,
        List.length_singleton, defectSeg2_length_num] <;> omega)]
  rw [List.getElem?_append_left (by
      simp only [List.length_append, List.length_map, List.length_range,
        List.length_singleton, defectSeg2_length_num] <;> omega)]
  rw [List.getElem?_append_right (by
      simp only [List.length_append, List.length_map, List.length_range,
        List.length_singleton, defectSeg2_length_num] <;> omega)]
  simp only [List.length_map, List.length_range]
  rw [show (4 : ℕ) + (4 * k + j) - 4 = 4 * k + j from by omega]
  rw [getElem?_flatMap_const _ 4 (fun t => by simp) hk hj]
  rw [getElem?_map_range _ hj]

/-- Row `6 + (6k + j)` of the 3D constraint vector is defect row `(k, j)`. -/
lemma constraints3_getElem?_defect {k j : ℕ} (hk : k < 99) (hj : j < 6) :
    constraints3[6 + (6 * k + j)]? = some (defectRow3 k j) := by
  rw [constraints3]
  simp only [sd3_eq, N3]
  rw [List.getElem?_append_left (by
      simp only [List.length_append, List.length_map, List.length_range,
        List.length_singleton, defectSeg3_length_num] <;> omega)]
  rw [List.getElem?_append_left (by
      simp only [List.length_append, List.length_map, List.length_range,
        List.length_singleton, defectSeg3_length_num] <;> omega)]
  rw [List.getElem?_append_left (by
      simp only [List.length_append, List.length_map, List.length_range,
        List.length_singleton, defectSeg3_length_num] <;> omega)]
  rw [List.getElem?_append_left (by
      simp only [List.length_append, List.length_map, List.length_range,
        List.length_singleton, defectSeg3_length_num] <;> omega)]
  rw [List.getElem?_append_left (by
      simp only [List.length_append, List.length_map, List.length_range,
        List.length_singleton, defectSeg3_length_num] <;> omega)]
  rw [List.getElem?_append_left (by
      simp only [List.length_append, List.length_map, List.length_range,
        List.length_singleton, defectSeg3_length_num] <;> omega)]
  rw [List.getElem?_append_left (by
      simp only [List.length_append, List.length_map, List.length_range,
        List.length_singleton, defectSeg3_length_num] <;> omega)]
  rw [List.getElem?_append_left (by
      simp only [List.length_append, List.length_map, List.length_range,
        List.length_singleton, defectSeg3_length_num] <;> omega)]
  rw [List.getElem?_append_left (by
      simp only [List.length_append, List.length_map, List.length_range,
        List.length_singleton, defectSeg3_length_num] <;> omega)]
  rw [List.getElem?_append_left (by
      simp only [List.length_append, List.length_map, List.length_range,
        List.length_singleton, defectSeg3_length_num] <;> omega)]
  rw [List.getElem?_append_right (by
      simp only [List.length_append, List.length_map, List.length_range,
        List.length_singleton, defectSeg3_length_num] <;> omega)]
  simp only [List.length_map, List.length_range]
  rw [show (6 : ℕ) + (6 * k + j) - 6 = 6 * k + j from by omega]
  rw [getElem?_flatMap_const _ 6 (fun t => by simp) hk hj]
  rw [getElem?_map_range _ hj]

/-- Row `708 + k` of the 2D constraint vector is the surface-safety row of
node `k`, for `k < 176`. -/
lemma constraints2_getElem?_surf {k : ℕ} (hk : k < 176) :
    constraints2[708 + k]? = some (surfRow2 k) := by
  rw [constraints2]
  simp only [sd2_eq, N2]
  rw [List.getElem?_append_left (by
      simp only [List.length_append, List.length_map, List.length_range,
        List.length_singleton, defectSeg2_length_num] <;> omega)]
  rw [List.getElem?_append_left (by
      simp only [List.length_append, List.length_map, List.length_range,
        List.length_singleton, defectSeg2_length_num] <;> omega)]
  rw [List.getElem?_append_left (by
      simp only [List.length_append, List.length_map, List.length_range,
        List.length_singleton, defectSeg2_length_num] <;> omega)]
  rw [List.getElem?_append_left (by
      simp only [List.length_append, List.length_map, List.length_range,
        List.length_singleton, defectSeg2_length_num] <;> omega)]
  rw [List.getElem?_append_left (by
      simp only [List.length_append, List.length_map, List.length_range,
        List.length_singleton, defectSeg2_length_num] <;> omega)]
  rw [List.getElem?_append_left (by
      simp only [List.length_append, List.length_map, List.length_range,
        List.length_singleton, defectSeg2_length_num] <;> omega)]
  rw [List.getElem?_append_right (by
      simp only [List.length_append, List.length_map, List.length_range,
        List.length_singleton, defectSeg2_length_num] <;> omega)]
  simp only [List.length_append, List.length_map, List.length_range,
    defectSeg2_length_num]
  rw [show (708 : ℕ) + k - (4 + 704) = k from by omega]
  rw [getElem?_map_range _ hk]

/-- Row `600 + k` of the 3D constraint vector is the surface-safety row of
node `k`, for `k < 99`. -/
lemma constraints3_getElem?_surf {k : ℕ} (hk : k < 99) :
    constraints3[600 + k]? = some (surfRow3 k) := by
  rw [constraints3]
  simp only [sd3_eq, N3]
  rw [List.getElem?_append_left (by
      simp only [List.length_append, List.length_map, List.length_range,
        List.length_singleton, defectSeg3_length_num] <;> omega)]
  rw [List.getElem?_append_left (by
      simp only [List.length_append, List.length_map, List.length_range,
        List.length_singleton, defectSeg3_length_num] <;> omega)]
  rw [List.getElem?_append_left (by
      simp only [List.length_append, List.length_map, List.length_range,
        List.length_singleton, defectSeg3_length_num] <;> omega)]
  rw [List.getElem?_append_left (by
      simp only [List.length_append, List.length_map, List.length_range,
        List.length_singleton, defectSeg3_length_num] <;> omega)]
  rw [List.getElem?_append_left (by
      simp only [List.length_append, List.length_map, List.length_range,
        List.length_singleton, defectSeg3_length_num] <;> omega)]
  rw [List.getElem?_append_left (by
      simp only [List.length_append, List.length_map, List.length_range,
        List.length_singleton, defectSeg3_length_num] <;> omega)]
  rw [List.getElem?_append_left (by
      simp only [List.length_append, List.length_map, List.length_range,
        List.length_singleton, defectSeg3_length_num] <;> omega)]
  rw [List.getElem?_append_left (by
      simp only [List.length_append, List.length_map, List.length_range,
        List.length_singleton, defectSeg3_length_num] <;> omega)]
  rw [List.getElem?_append_left (by
      simp only [List.length_append, List.length_map, List.length_range,
        List.length_singleton, defectSeg3_length_num] <;> omega)]
  rw [List.getElem?_append_right (by
      simp only [List.length_append, List.length_map, List.length_range,
        List.length_singleton, defectSeg3_length_num] <;> omega)]
  simp only [List.length_append, List.length_map, List.length_range,
    defectSeg3_length_num]
  rw [show (600 : ℕ) + k - (6 + 594) = k from by omega]
  rw [getElem?_map_range _ hk]

/-- The last three rows of the 2D constraint vector are the terminal rows. -/
lemma constraints2_getElem?_term :
    constraints2[1410]? = some vRow2 ∧ constraints2[1411]? = some vpRow2 ∧
    constraints2[1412]? = some pRow2 := by
  refine ⟨?_, ?_, ?_⟩
  · rw [constraints2]
    simp only [sd2_eq, N2]
    rw [List.getElem?_append_left (by
        simp only [List.length_append, List.length_map, List.length_range,
        List.length_singleton, defectSeg2_length_num] <;> omega)]
    rw [List.getElem?_append_left (by
        simp only [List.length_append, List.length_map, List.length_range,
        List.length_singleton, defectSeg2_length_num] <;> omega)]
    rw [getElem?_append_singleton _ _ (by
        simp only [List.length_append, List.length_map, List.length_range,
        List.length_singleton, defectSeg2_length_num] <;> omega)]
  · rw [constraints2]
    simp only [sd2_eq, N2]
    rw [List.getElem?_append_left (by
        simp only [List.length_append, List.length_map, List.length_range,
        List.length_singleton, defectSeg2_length_num] <;> omega)]
    rw [getElem?_append_singleton _ _ (by
        simp only [List.length_append, List.length_map, List.length_range,
        List.length_singleton, defectSeg2_length_num] <;> omega)]
  · rw [constraints2]
    simp only [sd2_eq, N2]
    rw [getElem?_append_singleton _ _ (by
        simp only [List.length_append, List.length_map, List.length_range,
        List.length_singleton, defectSeg2_length_num] <;> omega)]

/-- The last five rows of the 3D constraint vector are the terminal rows. -/
lemma constraints3_getElem?_term :
    constraints3[1092]? = some vRow3 ∧ constraints3[1093]? = some vpRow3 ∧
    constraints3[1094]? = some vnRow3 ∧ constraints3[1095]? = some pnRow3 ∧
    constraints3[1096]? = some pRow3 := by
  refine ⟨?_, ?_, ?_, ?_, ?_⟩
  · rw [constraints3]
    simp only [sd3_eq, N3]
    rw [List.getElem?_append_left (by
        simp only [List.length_append, List.length_map, List.length_range,
        List.length_singleton, defectSeg3_length_num] <;> omega)]
    rw [List.getElem?_append_left (by
        simp only [List.length_append, List.length_map, List.length_range,
        List.length_singleton, defectSeg3_length_num] <;> omega)]
    rw [List.getElem?_append_left (by
        simp only [List.length_append, List.length_map, List.length_range,
        List.length_singleton, defectSeg3_length_num] <;> omega)]
    rw [List.getElem?_append_left (by
        simp only [List.length_append, List.length_map, List.length_range,
        List.length_singleton, defectSeg3_length_num] <;> omega)]
    rw [getElem?_append_singleton _ _ (by
        simp only [List.length_append, List.length_map, List.length_range,
        List.length_singleton, defectSeg3_length_num] <;> omega)]
  · rw [constraints3]
    simp only [sd3_eq, N3]
    rw [List.getElem?_append_left (by
        simp only [List.length_append, List.length_map, List.length_range,
        List.length_singleton, defectSeg3_length_num] <;> omega)]
    rw [List.getElem?_append_left (by
        simp only [List.length_append, List.length_map, List.length_range,
        List.length_singleton, defectSeg3_length_num] <;> omega)]
    rw [List.getElem?_append_left (by
        simp only [List.length_append, List.length_map, List.length_range,
        List.length_singleton, defectSeg3_length_num] <;> omega)]
    rw [getElem?_append_singleton _ _ (by
        simp only [List.length_append, List.length_map, List.length_range,
        List.length_singleton, defectSeg3_length_num] <;> omega)]
  · rw [constraints3]
    simp only [sd3_eq, N3]
    rw [List.getElem?_append_left (by
        simp only [List.length_append, List.length_map, List.length_range,
        List.length_singleton, defectSeg3_length_num] <;> omega)]
    rw [List.getElem?_append_left (by
        simp only [List.length_append, List.length_map, List.length_range,
        List.length_singleton, defectSeg3_length_num] <;> omega)]
    rw [getElem?_append_singleton _ _ (by
        simp only [List.length_append, List.length_map, List.length_range,
        List.length_singleton, defectSeg3_length_num] <;> omega)]
  · rw [constraints3]
    simp only [sd3_eq, N3]
    rw [List.getElem?_append_left (by
        simp only [List.length_append, List.length_map, List.length_range,
        List.length_singleton, defectSeg3_length_num] <;> omega)]
    rw [getElem?_append_singleton _ _ (by
        simp only [List.length_append, List.length_map, List.length_range,
        List.length_singleton, defectSeg3_length_num] <;> omega)]
  · rw [constraints3]
    simp only [sd3_eq, N3]
    rw [getElem?_append_singleton _ _ (by
        simp only [List.length_append, List.length_map, List.length_range,
        List.length_singleton, defectSeg3_length_num] <;> omega)]

/-! ### Bound-pair relation -/

/-- Each constraint row's bounds define an equality (`lb = ub`) or an
inequality (`lb < ub`, the upper bound possibly infinite). -/
def BoundPair (lb ub : EReal) : Prop := lb = ub ∨ lb < ub

lemma boundPair_lbg2_ubg2 : List.Forall₂ BoundPair lbg2 ubg2 := by
  have hz : BoundPair 0 0 := Or.inl rfl
  have hone : List.Forall₂ BoundPair [0] [0] := List.Forall₂.cons hz List.Forall₂.nil
  have hsurf : BoundPair ((1.1 * surface : ℝ) : EReal) (⊤ : EReal) :=
    Or.inr (EReal.coe_lt_top _)
  have hthrust : BoundPair 0 ((thrust_max2 : ℝ) : EReal) := by
    refine Or.inr ?_
    rw [show (0 : EReal) = ((0 : ℝ) : EReal) from rfl]
    exact EReal.coe_lt_coe_iff.mpr (by rw [thrust_max2]; norm_num)
  have htslew : BoundPair 0 ((h2 * thrust_max2 / 60 : ℝ) : EReal) := by
    refine Or.inr ?_
    rw [show (0 : EReal) = ((0 : ℝ) : EReal) from rfl]
    refine EReal.coe_lt_coe_iff.mpr ?_
    have := h2_pos
    rw [thrust_max2]
    positivity
  have haslew : BoundPair 0 ((h2 * Real.pi / 48 : ℝ) : EReal) := by
    refine Or.inr ?_
    rw [show (0 : EReal) = ((0 : ℝ) : EReal) from rfl]
    refine EReal.coe_lt_coe_iff.mpr ?_
    have := h2_pos
    have := Real.pi_pos
    positivity
  rw [lbg2, ubg2]
  refine forall₂_append_my (forall₂_append_my (forall₂_append_my
    (forall₂_append_my (forall₂_append_my (forall₂_append_my
      (forall₂_append_my (forall₂_append_my
        (forall₂_replicate hz _)
        (forall₂_flatMap_range _ _ (fun _ => forall₂_replicate hz _) _))
        (forall₂_map_range _ _ (fun _ => hsurf) _))
        (forall₂_replicate hthrust _))
        (forall₂_map_range _ _ (fun _ => htslew) _))
        (forall₂_map_range _ _ (fun _ => haslew) _))
        hone) hone) hone

lemma boundPair_lbg3_ubg3 : List.Forall₂ BoundPair lbg3 ubg3 := by
  have hz : BoundPair 0 0 := Or.inl rfl
  have hone : List.Forall₂ BoundPair [0] [0] := List.Forall₂.cons hz List.Forall₂.nil
  have hsurf : BoundPair ((1.1 * surface : ℝ) : EReal) (⊤ : EReal) :=
    Or.inr (EReal.coe_lt_top _)
  have hthrust : BoundPair 0 ((thrust_max3 : ℝ) : EReal) := by
    refine Or.inr ?_
    rw [show (0 : EReal) = ((0 : ℝ) : EReal) from rfl]
    exact EReal.coe_lt_coe_iff.mpr (by rw [thrust_max3]; norm_num)
  have htslew : BoundPair 0 ((h3 * thrust_max3 / 60 : ℝ) : EReal) := by
    refine Or.inr ?_
    rw [show (0 : EReal) = ((0 : ℝ) : EReal) from rfl]
    refine EReal.coe_lt_coe_iff.mpr ?_
    have := h3_pos
    rw [thrust_max3]
    positivity
  have haslew : BoundPair 0 ((h3 * Real.pi / 48 : ℝ) : EReal) := by
    refine Or.inr ?_
    rw [show (0 : EReal) = ((0 : ℝ) : EReal) from rfl]
    refine EReal.coe_lt_coe_iff.mpr ?_
    have := h3_pos
    have := Real.pi_pos
    positivity
  rw [lbg3, ubg3]
  refine forall₂_append_my (forall₂_append_my (forall₂_append_my
    (forall₂_append_my (forall₂_append_my (forall₂_append_my
      (forall₂_append_my (forall₂_append_my (forall₂_append_my
        (forall₂_append_my (forall₂_append_my
          (forall₂_replicate hz _)
          (forall₂_flatMap_range _ _ (fun _ => forall₂_replicate hz _) _))
          (forall₂_map_range _ _ (fun _ => hsurf) _))
          (forall₂_replicate hthrust _))
          (forall₂_map_range _ _ (fun _ => htslew) _))
          (forall₂_map_range _ _ (fun _ => haslew) _))
          (forall₂_map_range _ _ (fun _ => haslew) _))
          hone) hone) hone) hone) hone

/-- Claim C1: for both constructed problem instances (2D and 3D), the
assembled constraint vector has the same number of scalar rows as the
lower-bound array `lbg` and the upper-bound array `ubg`, and each row's
bound pair is either an equality (`lb = ub`) or an inequality (`lb < ub`,
the upper bound possibly `+∞`). -/
theorem constraint_bound_alignment :
    (constraints2.length = lbg2.length ∧ lbg2.length = ubg2.length ∧
      List.Forall₂ BoundPair lbg2 ubg2) ∧
    (constraints3.length = lbg3.length ∧ lbg3.length = ubg3.length ∧
      List.Forall₂ BoundPair lbg3 ubg3) :=
  ⟨⟨by rw [constraints2_length, lbg2_length],
    by rw [lbg2_length, ubg2_length], boundPair_lbg2_ubg2⟩,
   ⟨by rw [constraints3_length, lbg3_length],
    by rw [lbg3_length, ubg3_length], boundPair_lbg3_ubg3⟩⟩

/-! ### The integrator claims -/

/-- Claim C3: for every ode `f`, state `x`, control `u` and step size `h`,
`rk4step_u f h x u` is exactly `x + (h/6)·(k1 + 2k2 + 2k3 + k4)` with
`k1 = f x u`, `k2 = f (x + (h/2)·k1) u`, `k3 = f (x + (h/2)·k2) u`,
`k4 = f (x + h·k3) u`, the same control `u` being passed to all four
derivative evaluations. -/
theorem rk4step_u_formula {V U : Type*} [AddCommGroup V] [Module ℝ V]
    (f : V → U → V) (h : ℝ) (x : V) (u : U) :
    rk4step_u f h x u =
      x + (h / 6) • (f x u
        + (2 : ℝ) • f (x + (h / 2) • f x u) u
        + (2 : ℝ) • f (x + (h / 2) • f (x + (h / 2) • f x u) u) u
        + f (x + h • f (x + (h / 2) • f (x + (h / 2) • f x u) u) u) u) := by
  simp only [rk4step_u, show h * 0.5 = h / 2 from by ring]

/-- Claim C10: one RK4 step with zero step size is the identity on the
state, for every ode `f`, state `x` and control `u`. -/
theorem rk4step_u_zero_step {V U : Type*} [AddCommGroup V] [Module ℝ V]
    (f : V → U → V) (x : V) (u : U) :
    rk4step_u f 0 x u = x := by
  simp [rk4step_u]

/-! ### The cost claim -/

/-- Claim C5: in both variants the NLP objective is the left Riemann sum
`Σ_{k<N} h * r_k` where `r_k` is component `0` of control node `k`; it
depends on no state variable and on no direction-angle component of the
controls. -/
theorem cost_left_riemann :
    (∀ x u, cost_function_integral_discrete2 x u =
        ∑ k ∈ Finset.range N2, h2 * ctrl2 k u 0) ∧
    (∀ x x' u u', (∀ k, k < N2 → u (dimension2 * k) = u' (dimension2 * k)) →
        cost_function_integral_discrete2 x u =
          cost_function_integral_discrete2 x' u') ∧
    (∀ x u, cost_function_integral_discrete3 x u =
        ∑ k ∈ Finset.range N3, h3 * ctrl3 k u 0) ∧
    (∀ x x' u u', (∀ k, k < N3 → u (dimension3 * k) = u' (dimension3 * k)) →
        cost_function_integral_discrete3 x u =
          cost_function_integral_discrete3 x' u') := by
  refine ⟨fun x u => rfl, fun x x' u u' hu => ?_, fun x u => rfl,
    fun x x' u u' hu => ?_⟩
  · exact Finset.sum_congr rfl fun k hk => by
      rw [hu k (Finset.mem_range.mp hk)]
  · exact Finset.sum_congr rfl fun k hk => by
      rw [hu k (Finset.mem_range.mp hk)]

/-- Witness for C5: the objective is unchanged when the states and the
direction-angle control components change. -/
theorem cost_left_riemann_witness :
    cost_function_integral_discrete2 (fun _ => 0) (fun _ => 1) =
      cost_function_integral_discrete2 (fun _ => 2)
        (fun m => if m % 2 = 0 then 1 else 5) :=
  cost_left_riemann.2.1 _ _ _ _ (fun k _ => by
    simp [dimension2, Nat.mul_mod_right])

/-! ### The dynamics-model claim -/

lemma sum_skip_eq_erase (n i : ℕ) (f : ℕ → ℝ) :
    (∑ j ∈ Finset.range n, if i = j then 0 else f j) =
      ∑ j ∈ (Finset.range n).erase i, f j := by
  rw [← Finset.sum_erase (Finset.range n)
    (show (if i = i then (0 : ℝ) else f i) = 0 from if_pos rfl)]
  exact Finset.sum_congr rfl fun j hj =>
    if_neg (fun h => (Finset.mem_erase.mp hj).1 h.symm)

/-- Claim C4: for every state, control, mass list and body count, the
dynamics models of both scripts return the concatenation of each orbiting
body's velocity followed by its acceleration, where the acceleration is
the claimed sum of pairwise gravity, primary gravity and (for body 0) the
thrust decomposition. -/
theorem ode_general_matches_spec (z u : ℕ → ℝ) (bm : List ℝ)
    (n d i c : ℕ) (hi : i < n) (hc : c < d) :
    (ode_general2d z u bm n d (i * d + c) = z (n * d + (i * d + c)) ∧
      ode_general2d z u bm n d (n * d + (i * d + c)) =
        accel_spec2d z u bm n d i c) ∧
    (ode_general3d z u bm n d (i * d + c) = z (n * d + (i * d + c)) ∧
      ode_general3d z u bm n d (n * d + (i * d + c)) =
        accel_spec3d z u bm n d i c) := by
  have hm : i * d + c < n * d := by
    calc i * d + c < i * d + d := by omega
      _ = (i + 1) * d := (Nat.succ_mul i d).symm
      _ ≤ n * d := Nat.mul_le_mul_right d (by omega)
  have h0d : 0 < d := by omega
  have hdiv : (i * d + c) / d = i := by
    rw [show i * d + c = c + i * d from by ring, Nat.add_mul_div_right _ _ h0d,
      Nat.div_eq_of_lt hc, Nat.zero_add]
  have hmod : (i * d + c) % d = c := by
    rw [show i * d + c = c + i * d from by ring, Nat.add_mul_mod_self_right,
      Nat.mod_eq_of_lt hc]
  refine ⟨⟨?_, ?_⟩, ⟨?_, ?_⟩⟩
  · simp only [ode_general2d]
    rw [if_pos hm]
  · simp only [ode_general2d]
    rw [if_neg (by omega), show n * d + (i * d + c) - n * d = i * d + c from
      by omega, hdiv, hmod, accel_spec2d, sum_skip_eq_erase]
    simp only [sub_zero]
    split_ifs <;> ring
  · simp only [ode_general3d]
    rw [if_pos hm]
  · simp only [ode_general3d]
    rw [if_neg (by omega), show n * d + (i * d + c) - n * d = i * d + c from
      by omega, hdiv, hmod, accel_spec3d, sum_skip_eq_erase]
    simp only [sub_zero]
    split_ifs <;> ring

/-- Witness for C4 at a concrete state, control, mass list and index. -/
theorem ode_general_matches_spec_witness :
    (ode_general2d (fun m => (m : ℝ)) (fun _ => 1) [1, 2] 1 2 (0 * 2 + 0) =
        ((1 * 2 + (0 * 2 + 0) : ℕ) : ℝ) ∧
      ode_general2d (fun m => (m : ℝ)) (fun _ => 1) [1, 2] 1 2
          (1 * 2 + (0 * 2 + 0)) =
        accel_spec2d (fun m => (m : ℝ)) (fun _ => 1) [1, 2] 1 2 0 0) ∧
    (ode_general3d (fun m => (m : ℝ)) (fun _ => 1) [1, 2] 1 2 (0 * 2 + 0) =
        ((1 * 2 + (0 * 2 + 0) : ℕ) : ℝ) ∧
      ode_general3d (fun m => (m : ℝ)) (fun _ => 1) [1, 2] 1 2
          (1 * 2 + (0 * 2 + 0)) =
        accel_spec3d (fun m => (m : ℝ)) (fun _ => 1) [1, 2] 1 2 0 0) := by
  exact ode_general_matches_spec (fun m => (m : ℝ)) (fun _ => 1) [1, 2] 1 2 0 0
    (by norm_num) (by norm_num)

/-! ### Evaluation and locality of the fixed-data dynamics -/

lemma ode2_apply_lt (z u : ℕ → ℝ) {m : ℕ} (hm : m < 2) :
    ode2 z u m = z (2 + m) := by
  simp only [ode2, ode_general2d]
  rw [if_pos (show m < n_body * dimension2 from by
    simp only [n_body, dimension2]; omega)]
  norm_num [n_body, dimension2]

lemma ode2_apply_acc (z u : ℕ → ℝ) {c : ℕ} (hc : c < 2) :
    ode2 z u (2 + c) =
      grav_const * sun_mass / normR 2 z ^ 3 * (0 - z c) +
      (if c = 0 then u 0 * Real.cos (u 1) / rocket_mass
       else u 0 * Real.sin (u 1) / rocket_mass) := by
  simp only [ode2, ode_general2d, n_body, dimension2, body_masses]
  rw [if_neg (by omega), show 2 + c - 1 * 2 = c from by omega,
    Nat.div_eq_of_lt hc, Nat.mod_eq_of_lt hc, Finset.sum_range_one,
    if_pos rfl,
    show List.getLastD [rocket_mass, sun_mass] 0 = sun_mass from rfl,
    show List.getD [rocket_mass, sun_mass] 0 0 = rocket_mass from rfl]
  simp only [sub_zero, Nat.zero_mul, Nat.zero_add, zero_add]
  split_ifs <;> first | rfl | (exfalso; omega)

lemma ode3_apply_lt (z u : ℕ → ℝ) {m : ℕ} (hm : m < 3) :
    ode3 z u m = z (3 + m) := by
  simp only [ode3, ode_general3d]
  rw [if_pos (show m < n_body * dimension3 from by
    simp only [n_body, dimension3]; omega)]
  norm_num [n_body, dimension3]

lemma ode3_apply_acc (z u : ℕ → ℝ) {c : ℕ} (hc : c < 3) :
    ode3 z u (3 + c) =
      grav_const * sun_mass / normR 3 z ^ 3 * (0 - z c) +
      (if c = 0 then u 0 * Real.sin (u 1) * Real.cos (u 2) / rocket_mass
       else if c = 1 then u 0 * Real.sin (u 1) * Real.sin (u 2) / rocket_mass
       else u 0 * Real.cos (u 1) / rocket_mass) := by
  simp only [ode3, ode_general3d, n_body, dimension3, body_masses]
  rw [if_neg (by omega), show 3 + c - 1 * 3 = c from by omega,
    Nat.div_eq_of_lt hc, Nat.mod_eq_of_lt hc, Finset.sum_range_one,
    if_pos rfl,
    show List.getLastD [rocket_mass, sun_mass] 0 = sun_mass from rfl,
    show List.getD [rocket_mass, sun_mass] 0 0 = rocket_mass from rfl]
  simp only [sub_zero, Nat.zero_mul, Nat.zero_add, zero_add]
  split_ifs <;> first | rfl | (exfalso; omega)

/-- Two flat vectors agree on their first `n` entries. -/
def AgreeUpTo (n : ℕ) (x y : ℕ → ℝ) : Prop := ∀ m, m < n → x m = y m

lemma normR_congr {d : ℕ} {x y : ℕ → ℝ} (h : AgreeUpTo d x y) :
    normR d x = normR d y := by
  rw [normR, normR]
  congr 1
  exact Finset.sum_congr rfl fun t ht =>
    by rw [h t (Finset.mem_range.mp ht)]

lemma ode2_agree {x y u v : ℕ → ℝ} (hx : AgreeUpTo 4 x y)
    (hu : AgreeUpTo 2 u v) : AgreeUpTo 4 (ode2 x u) (ode2 y v) := by
  intro m hm
  rcases Nat.lt_or_ge m 2 with h | h
  · rw [ode2_apply_lt _ _ h, ode2_apply_lt _ _ h]
    exact hx (2 + m) (by omega)
  · have hc : m - 2 < 2 := by omega
    rw [show m = 2 + (m - 2) from by omega, ode2_apply_acc _ _ hc,
      ode2_apply_acc _ _ hc,
      normR_congr (fun t ht => hx t (by omega)),
      hx (m - 2) (by omega), hu 0 (by omega), hu 1 (by omega)]

lemma ode3_agree {x y u v : ℕ → ℝ} (hx : AgreeUpTo 6 x y)
    (hu : AgreeUpTo 3 u v) : AgreeUpTo 6 (ode3 x u) (ode3 y v) := by
  intro m hm
  rcases Nat.lt_or_ge m 3 with h | h
  · rw [ode3_apply_lt _ _ h, ode3_apply_lt _ _ h]
    exact hx (3 + m) (by omega)
  · have hc : m - 3 < 3 := by omega
    rw [show m = 3 + (m - 3) from by omega, ode3_apply_acc _ _ hc,
      ode3_apply_acc _ _ hc,
      normR_congr (fun t ht => hx t (by omega)),
      hx (m - 3) (by omega), hu 0 (by omega), hu 1 (by omega),
      hu 2 (by omega)]

lemma agree_add_smul {n : ℕ} {x y k l : ℕ → ℝ} (c : ℝ)
    (hx : AgreeUpTo n x y) (hk : AgreeUpTo n k l) :
    AgreeUpTo n (x + c • k) (y + c • l) := by
  intro m hm
  simp only [Pi.add_apply, Pi.smul_apply, smul_eq_mul]
  rw [hx m hm, hk m hm]

lemma dynamics2_agree {x y u v : ℕ → ℝ} (hs : ℝ) (hx : AgreeUpTo 4 x y)
    (hu : AgreeUpTo 2 u v) :
    AgreeUpTo 4 (dynamics2 x u hs) (dynamics2 y v hs) := by
  have h1 := ode2_agree hx hu
  have h2 := ode2_agree (agree_add_smul (hs * 0.5) hx h1) hu
  have h3 := ode2_agree (agree_add_smul (hs * 0.5) hx h2) hu
  have h4 := ode2_agree (agree_add_smul hs hx h3) hu
  intro m hm
  simp only [dynamics2, rk4step_u, Pi.add_apply, Pi.smul_apply, smul_eq_mul]
  rw [hx m hm, h1 m hm, h2 m hm, h3 m hm, h4 m hm]

lemma dynamics3_agree {x y u v : ℕ → ℝ} (hs : ℝ) (hx : AgreeUpTo 6 x y)
    (hu : AgreeUpTo 3 u v) :
    AgreeUpTo 6 (dynamics3 x u hs) (dynamics3 y v hs) := by
  have h1 := ode3_agree hx hu
  have h2 := ode3_agree (agree_add_smul (hs * 0.5) hx h1) hu
  have h3 := ode3_agree (agree_add_smul (hs * 0.5) hx h2) hu
  have h4 := ode3_agree (agree_add_smul hs hx h3) hu
  intro m hm
  simp only [dynamics3, rk4step_u, Pi.add_apply, Pi.smul_apply, smul_eq_mul]
  rw [hx m hm, h1 m hm, h2 m hm, h3 m hm, h4 m hm]

lemma node2_flat2 (x0 : ℕ → ℝ) (useq : ℕ → ℕ → ℝ) (k : ℕ) :
    AgreeUpTo 4 (node2 k (flat2 x0 useq)) (rollout2 x0 useq k) := by
  intro m hm
  simp only [node2, flat2, sd2_eq]
  rw [show (k * 4 + m) / 4 = k from by omega,
    show (k * 4 + m) % 4 = m from by omega]

lemma ctrl2_uflat2 (useq : ℕ → ℕ → ℝ) (k : ℕ) :
    AgreeUpTo 2 (ctrl2 k (uflat2 useq)) (useq k) := by
  intro m hm
  simp only [ctrl2, uflat2, dimension2]
  rw [show (2 * k + m) / 2 = k from by omega,
    show (2 * k + m) % 2 = m from by omega]

lemma node3_flat3 (x0 : ℕ → ℝ) (useq : ℕ → ℕ → ℝ) (k : ℕ) :
    AgreeUpTo 6 (node3 k (flat3 x0 useq)) (rollout3 x0 useq k) := by
  intro m hm
  simp only [node3, flat3, sd3_eq]
  rw [show (k * 6 + m) / 6 = k from by omega,
    show (k * 6 + m) % 6 = m from by omega]

lemma ctrl3_uflat3 (useq : ℕ → ℕ → ℝ) (k : ℕ) :
    AgreeUpTo 3 (ctrl3 k (uflat3 useq)) (useq k) := by
  intro m hm
  simp only [ctrl3, uflat3, dimension3]
  rw [show (3 * k + m) / 3 = k from by omega,
    show (3 * k + m) % 3 = m from by omega]

/-- Claim C8: for every starting state and every placeholder control
sequence, the rolled-out initial-guess trajectory satisfies every per-step
dynamics-consistency constraint row exactly: each defect row evaluates to
`0` on the flattened guess, in both variants. -/
theorem guess_defect_feasible (x0 : ℕ → ℝ) (useq : ℕ → ℕ → ℝ) (k j : ℕ) :
    (j < state_dimension2 →
      defectRow2 k j (flat2 x0 useq) (uflat2 useq) = 0) ∧
    (j < state_dimension3 →
      defectRow3 k j (flat3 x0 useq) (uflat3 useq) = 0) := by
  constructor
  · intro hj
    have hj' : j < 4 := by simpa [sd2_eq] using hj
    simp only [defectRow2]
    have e1 : flat2 x0 useq ((k + 1) * state_dimension2 + j) =
        rollout2 x0 useq (k + 1) j := by
      simp only [flat2, sd2_eq]
      rw [show ((k + 1) * 4 + j) / 4 = k + 1 from by omega,
        show ((k + 1) * 4 + j) % 4 = j from by omega]
    have e2 : dynamics2 (node2 k (flat2 x0 useq)) (ctrl2 k (uflat2 useq)) h2 j
        = dynamics2 (rollout2 x0 useq k) (useq k) h2 j :=
      dynamics2_agree h2 (node2_flat2 x0 useq k) (ctrl2_uflat2 useq k) j hj'
    rw [e1, e2, show rollout2 x0 useq (k + 1) =
      dynamics2 (rollout2 x0 useq k) (useq k) h2 from rfl]
    exact sub_self _
  · intro hj
    have hj' : j < 6 := by simpa [sd3_eq] using hj
    simp only [defectRow3]
    have e1 : flat3 x0 useq ((k + 1) * state_dimension3 + j) =
        rollout3 x0 useq (k + 1) j := by
      simp only [flat3, sd3_eq]
      rw [show ((k + 1) * 6 + j) / 6 = k + 1 from by omega,
        show ((k + 1) * 6 + j) % 6 = j from by omega]
    have e2 : dynamics3 (node3 k (flat3 x0 useq)) (ctrl3 k (uflat3 useq)) h3 j
        = dynamics3 (rollout3 x0 useq k) (useq k) h3 j :=
      dynamics3_agree h3 (node3_flat3 x0 useq k) (ctrl3_uflat3 useq k) j hj'
    rw [e1, e2, show rollout3 x0 useq (k + 1) =
      dynamics3 (rollout3 x0 useq k) (useq k) h3 from rfl]
    exact sub_self _

/-- Witness for C8: the first defect row vanishes on the zero-seeded
guesses of both variants. -/
theorem guess_defect_feasible_witness :
    defectRow2 0 0 (flat2 (fun _ => 0) (fun _ _ => 0))
        (uflat2 (fun _ _ => 0)) = 0 ∧
    defectRow3 0 0 (flat3 (fun _ => 0) (fun _ _ => 0))
        (uflat3 (fun _ _ => 0)) = 0 :=
  ⟨(guess_defect_feasible (fun _ => 0) (fun _ _ => 0) 0 0).1
      (by simp [sd2_eq]),
   (guess_defect_feasible (fun _ => 0) (fun _ _ => 0) 0 0).2
      (by simp [sd3_eq])⟩

/-! ### The defect-row placement claim -/

/-- Claim C2: in both variants, for every interval `k < N` the problem
instance contains a block of `state_dim` equality rows (`lb = ub = 0`)
placed immediately after the `state_dim` initial-condition rows, ordered
by increasing `k`, whose row `j` is
`x_{k+1}[j] − rk4step_u(ode, h, x_k, u_k)[j]` on the decision-variable
slices of nodes `k` and `k+1`. -/
theorem dynamics_defect_rows (k j : ℕ) :
    (j < state_dimension2 → constraints2[j]? = some (initRow2 j)) ∧
    (k < N2 → j < state_dimension2 →
      constraints2[state_dimension2 + state_dimension2 * k + j]? =
          some (defectRow2 k j) ∧
      lbg2[state_dimension2 + state_dimension2 * k + j]? = some 0 ∧
      ubg2[state_dimension2 + state_dimension2 * k + j]? = some 0 ∧
      ∀ xv uv, defectRow2 k j xv uv =
        xv (state_dimension2 * (k + 1) + j) -
          rk4step_u ode2 h2 (node2 k xv) (ctrl2 k uv) j) ∧
    (j < state_dimension3 → constraints3[j]? = some (initRow3 j)) ∧
    (k < N3 → j < state_dimension3 →
      constraints3[state_dimension3 + state_dimension3 * k + j]? =
          some (defectRow3 k j) ∧
      lbg3[state_dimension3 + state_dimension3 * k + j]? = some 0 ∧
      ubg3[state_dimension3 + state_dimension3 * k + j]? = some 0 ∧
      ∀ xv uv, defectRow3 k j xv uv =
        xv (state_dimension3 * (k + 1) + j) -
          rk4step_u ode3 h3 (node3 k xv) (ctrl3 k uv) j) := by
  refine ⟨?_, ?_, ?_, ?_⟩
  · intro hj
    exact constraints2_getElem?_init (by simpa [sd2_eq] using hj)
  · intro hk hj
    have hk' : k < 176 := by simpa [N2] using hk
    have hj' : j < 4 := by simpa [sd2_eq] using hj
    rw [show state_dimension2 + state_dimension2 * k + j = 4 + (4 * k + j)
      from by simp only [sd2_eq]; ring]
    refine ⟨constraints2_getElem?_defect hk' hj', ?_, ?_, ?_⟩
    · rw [lbg2_getElem?_eq (by omega), if_neg (by omega)]
    · rw [ubg2_getElem?_eq (by omega), if_neg (by omega), if_neg (by omega),
        if_neg (by omega), if_neg (by omega)]
    · intro xv uv
      rw [defectRow2, Nat.mul_comm (k + 1) state_dimension2]
      rfl
  · intro hj
    exact constraints3_getElem?_init (by simpa [sd3_eq] using hj)
  · intro hk hj
    have hk' : k < 99 := by simpa [N3] using hk
    have hj' : j < 6 := by simpa [sd3_eq] using hj
    rw [show state_dimension3 + state_dimension3 * k + j = 6 + (6 * k + j)
      from by simp only [sd3_eq]; ring]
    refine ⟨constraints3_getElem?_defect hk' hj', ?_, ?_, ?_⟩
    · exact lbg3_getElem?_lt600 (by omega)
    · exact ubg3_getElem?_lt600 (by omega)
    · intro xv uv
      rw [defectRow3, Nat.mul_comm (k + 1) state_dimension3]
      rfl

/-- Witness for C2 at interval `k = 0`, state component `j = 0`. -/
theorem dynamics_defect_rows_witness :
    constraints2[state_dimension2 + state_dimension2 * 0 + 0]? =
        some (defectRow2 0 0) ∧
    constraints3[state_dimension3 + state_dimension3 * 0 + 0]? =
        some (defectRow3 0 0) :=
  ⟨(((dynamics_defect_rows 0 0).2.1 (by norm_num [N2])
      (by norm_num [sd2_eq])).1),
   (((dynamics_defect_rows 0 0).2.2.2 (by norm_num [N3])
      (by norm_num [sd3_eq])).1)⟩

/-! ### The surface-safety-row claim -/

/-- The terminal node's distance row differs from every safety row the 2D
script actually emits: they disagree on a state vector that is `1` on the
node-`N` slice and `0` elsewhere. -/
lemma surfRow2_ne {m : ℕ} (hm : m < 176) : surfRow2 176 ≠ surfRow2 m := by
  intro heq
  have hev := congrFun (congrFun heq (fun t => if 704 ≤ t then 1 else 0))
    (fun _ => 0)
  simp only [surfRow2] at hev
  have hL : normR dimension2
      (node2 176 (fun t => if 704 ≤ t then (1 : ℝ) else 0)) = Real.sqrt 2 := by
    rw [normR, dimension2, Finset.sum_range_succ, Finset.sum_range_one]
    norm_num [node2, sd2_eq]
  have hR : normR dimension2
      (node2 m (fun t => if 704 ≤ t then (1 : ℝ) else 0)) = 0 := by
    rw [normR]
    have e0 : ∀ c ∈ Finset.range dimension2,
        node2 m (fun t => if 704 ≤ t then (1 : ℝ) else 0) c ^ 2 = 0 := by
      intro c hc
      have hc2 : c < 2 := by simpa [dimension2] using hc
      simp only [node2, sd2_eq]
      rw [if_neg (by omega)]
      norm_num
    rw [Finset.sum_eq_zero e0, Real.sqrt_zero]
  rw [hL, hR] at hev
  have h2pos : (0 : ℝ) < Real.sqrt 2 := Real.sqrt_pos.mpr (by norm_num)
  rw [hev] at h2pos
  exact lt_irrefl 0 h2pos

/-- Claim C6 counterexample: the 2D problem instance contains no row that
is the terminal node's distance-from-origin expression with the safety
bounds `[1.1·surface, +∞)`; the safety loop stops at node `N − 1`. -/
theorem surface_rows_cex :
    ¬ ∃ i : ℕ, constraints2[i]? = some (surfRow2 N2) ∧
      lbg2[i]? = some ((1.1 * surface : ℝ) : EReal) ∧
      ubg2[i]? = some (⊤ : EReal) := by
  rintro ⟨i, hc, hl, -⟩
  have hilen : i < 1413 := by
    by_contra hge
    have hnone : lbg2[i]? = none :=
      List.getElem?_eq_none (by rw [lbg2_length]; omega)
    rw [hnone] at hl
    exact Option.noConfusion hl
  rw [lbg2_getElem?_eq hilen] at hl
  by_cases hreg : 708 ≤ i ∧ i < 884
  · obtain ⟨h7, h8⟩ := hreg
    have hsurf : constraints2[708 + (i - 708)]? = some (surfRow2 (i - 708)) :=
      constraints2_getElem?_surf (by omega)
    rw [show 708 + (i - 708) = i from by omega, hc] at hsurf
    have heq : surfRow2 N2 = surfRow2 (i - 708) := Option.some.inj hsurf
    rw [N2] at heq
    exact surfRow2_ne (by omega) heq
  · rw [if_neg hreg] at hl
    have h0 : (0 : EReal) = ((1.1 * surface : ℝ) : EReal) := Option.some.inj hl
    have : (1.1 * surface : ℝ) = 0 := EReal.coe_eq_zero.mp h0.symm
    rw [surface] at this
    norm_num at this

/-- Claim C6 (amended): for every node `k = 0..N−1` (the terminal node `N`
excluded), both problem instances contain the safety row
`‖position of the actuated body at node k‖` with lower bound
`1.1·surface` and upper bound `+∞`, placed directly after the defect
rows. -/
theorem surface_rows (k : ℕ) :
    (k < N2 →
      constraints2[state_dimension2 + state_dimension2 * N2 + k]? =
          some (surfRow2 k) ∧
      lbg2[state_dimension2 + state_dimension2 * N2 + k]? =
          some ((1.1 * surface : ℝ) : EReal) ∧
      ubg2[state_dimension2 + state_dimension2 * N2 + k]? =
          some (⊤ : EReal) ∧
      ∀ xv uv, surfRow2 k xv uv = normR dimension2 (node2 k xv)) ∧
    (k < N3 →
      constraints3[state_dimension3 + state_dimension3 * N3 + k]? =
          some (surfRow3 k) ∧
      lbg3[state_dimension3 + state_dimension3 * N3 + k]? =
          some ((1.1 * surface : ℝ) : EReal) ∧
      ubg3[state_dimension3 + state_dimension3 * N3 + k]? =
          some (⊤ : EReal) ∧
      ∀ xv uv, surfRow3 k xv uv = normR dimension3 (node3 k xv)) := by
  constructor
  · intro hk
    have hk' : k < 176 := by simpa [N2] using hk
    rw [show state_dimension2 + state_dimension2 * N2 + k = 708 + k from by
      simp only [sd2_eq, N2]]
    refine ⟨constraints2_getElem?_surf hk', ?_, ?_, fun xv uv => rfl⟩
    · rw [lbg2_getElem?_eq (by omega), if_pos ⟨by omega, by omega⟩]
    · rw [ubg2_getElem?_eq (by omega), if_pos ⟨by omega, by omega⟩]
  · intro hk
    have hk' : k < 99 := by simpa [N3] using hk
    rw [show state_dimension3 + state_dimension3 * N3 + k = 600 + k from by
      simp only [sd3_eq, N3]]
    exact ⟨constraints3_getElem?_surf hk', lbg3_getElem?_surf hk',
      ubg3_getElem?_surf hk', fun xv uv => rfl⟩

/-- Witness for the amended C6 at node `k = 0`. -/
theorem surface_rows_witness :
    constraints2[state_dimension2 + state_dimension2 * N2 + 0]? =
        some (surfRow2 0) ∧
    constraints3[state_dimension3 + state_dimension3 * N3 + 0]? =
        some (surfRow3 0) :=
  ⟨((surface_rows 0).1 (by norm_num [N2])).1,
   ((surface_rows 0).2 (by norm_num [N3])).1⟩

/-! ### The initial-guess starting-state claim -/

/-- Claim C7 counterexample: node `0` of the 2D initial-guess rollout is
the hard-coded seed state, whose first component is `surface = 100`, not
`x_0_bar`'s first component `1.1·surface = 110`. -/
theorem guess_start_cex :
    rollout2 (fun m => x_initial2.getD m 0) (fun _ _ => 0) 0 0 ≠
      x_0_bar2.getD 0 0 := by
  show x_initial2.getD 0 0 ≠ x_0_bar2.getD 0 0
  simp only [x_initial2, x_0_bar2, List.getD, surface]
  norm_num

/-- Claim C7 (amended): node `0` of the initial-guess rollout equals the
separately hard-coded seed state `x_initial`, not `x_0_bar`: in 2D the
first initial-condition row evaluates to `−10` on the guess, and in 3D
the seed's fifth component differs from `x_0_bar`'s. -/
theorem guess_start_amended :
    (∀ useq, rollout2 (fun m => x_initial2.getD m 0) useq 0 =
      fun m => x_initial2.getD m 0) ∧
    initRow2 0 (flat2 (fun m => x_initial2.getD m 0) (fun _ _ => 0))
        (uflat2 (fun _ _ => 0)) = -10 ∧
    (∀ useq, rollout3 (fun m => x_initial3.getD m 0) useq 0 =
      fun m => x_initial3.getD m 0) ∧
    x_initial3.getD 4 0 ≠ x_0_bar3.getD 4 0 := by
  have hcos : 0 < Real.cos theta_v_0_bar := by
    refine Real.cos_pos_of_mem_Ioo ⟨?_, ?_⟩
    · rw [theta_v_0_bar]
      have := Real.pi_pos
      have h1 : 0 < Real.pi / 2.1 := by positivity
      have h2 : 0 < Real.pi / 2 := by positivity
      linarith
    · rw [theta_v_0_bar]
      exact div_lt_div_of_pos_left Real.pi_pos (by norm_num) (by norm_num)
  refine ⟨fun useq => rfl, ?_, fun useq => rfl, ?_⟩
  · show flat2 (fun m => x_initial2.getD m 0) (fun _ _ => 0) 0 -
      x_0_bar2.getD 0 0 = -10
    simp only [flat2, sd2_eq, Nat.zero_div, Nat.zero_mod]
    show x_initial2.getD 0 0 - x_0_bar2.getD 0 0 = -10
    simp only [x_initial2, x_0_bar2, List.getD, surface]
    norm_num
  · intro heq
    simp only [x_initial3, x_0_bar3, List.getD, guess_v_initial3,
      v_initial3] at heq
    have := mul_right_cancel₀ (ne_of_gt hcos) heq
    norm_num at this

/-- Witness for the amended C7: the rollout instantiated at the zero
placeholder control sequence starts at the seed state. -/
theorem guess_start_amended_witness :
    rollout2 (fun m => x_initial2.getD m 0) (fun _ _ => 0) 0 =
      fun m => x_initial2.getD m 0 :=
  guess_start_amended.1 (fun _ _ => 0)

/-! ### The terminal-constraint claim -/

/-- Claim C9: in both variants the final constraint rows are equality rows
(`lb = ub = 0`) that depend only on the node-`N` slice of the state: in 2D
the last three rows are `‖v_N‖ − v_orb`, `⟨v_N, p_N⟩` and `‖p_N‖ − orbit`
with `v_orb = sqrt(G·M/orbit)`; in 3D the last five rows additionally
include `⟨v_N, n⟩` and `⟨p_N, n⟩` with `n = Qᵀ·[0,1,0]` for the composed
x-y-z rotation `Q`. -/
theorem terminal_rows :
    (constraints2.length = 1413 ∧
     constraints2[1410]? = some vRow2 ∧
     constraints2[1411]? = some vpRow2 ∧
     constraints2[1412]? = some pRow2 ∧
     (lbg2[1410]? = some 0 ∧ ubg2[1410]? = some 0) ∧
     (lbg2[1411]? = some 0 ∧ ubg2[1411]? = some 0) ∧
     (lbg2[1412]? = some 0 ∧ ubg2[1412]? = some 0) ∧
     orbital_vel = Real.sqrt (grav_const * sun_mass / orbit)) ∧
    (constraints3.length = 1097 ∧
     constraints3[1092]? = some vRow3 ∧
     constraints3[1093]? = some vpRow3 ∧
     constraints3[1094]? = some vnRow3 ∧
     constraints3[1095]? = some pnRow3 ∧
     constraints3[1096]? = some pRow3 ∧
     (lbg3[1092]? = some 0 ∧ ubg3[1092]? = some 0) ∧
     (lbg3[1093]? = some 0 ∧ ubg3[1093]? = some 0) ∧
     (lbg3[1094]? = some 0 ∧ ubg3[1094]? = some 0) ∧
     (lbg3[1095]? = some 0 ∧ ubg3[1095]? = some 0) ∧
     (lbg3[1096]? = some 0 ∧ ubg3[1096]? = some 0) ∧
     orbit_normal =
       (rot_matrix_x * rot_matrix_y * rot_matrix_z).transpose.mulVec
         ![0, 1, 0]) ∧
    (∀ xv xv' uv uv',
      (∀ m, m < state_dimension2 →
        xv (N2 * state_dimension2 + m) = xv' (N2 * state_dimension2 + m)) →
      vRow2 xv uv = vRow2 xv' uv' ∧ vpRow2 xv uv = vpRow2 xv' uv' ∧
        pRow2 xv uv = pRow2 xv' uv') ∧
    (∀ xv xv' uv uv',
      (∀ m, m < state_dimension3 →
        xv (N3 * state_dimension3 + m) = xv' (N3 * state_dimension3 + m)) →
      vRow3 xv uv = vRow3 xv' uv' ∧ vpRow3 xv uv = vpRow3 xv' uv' ∧
        vnRow3 xv uv = vnRow3 xv' uv' ∧ pnRow3 xv uv = pnRow3 xv' uv' ∧
        pRow3 xv uv = pRow3 xv' uv') := by
  refine ⟨⟨constraints2_length, constraints2_getElem?_term.1,
      constraints2_getElem?_term.2.1, constraints2_getElem?_term.2.2,
      ⟨?_, ?_⟩, ⟨?_, ?_⟩, ⟨?_, ?_⟩, ?_⟩,
    ⟨constraints3_length, constraints3_getElem?_term.1,
      constraints3_getElem?_term.2.1, constraints3_getElem?_term.2.2.1,
      constraints3_getElem?_term.2.2.2.1, constraints3_getElem?_term.2.2.2.2,
      ⟨lbg3_getElem?_term.1, ubg3_getElem?_term.1⟩,
      ⟨lbg3_getElem?_term.2.1, ubg3_getElem?_term.2.1⟩,
      ⟨lbg3_getElem?_term.2.2.1, ubg3_getElem?_term.2.2.1⟩,
      ⟨lbg3_getElem?_term.2.2.2.1, ubg3_getElem?_term.2.2.2.1⟩,
      ⟨lbg3_getElem?_term.2.2.2.2, ubg3_getElem?_term.2.2.2.2⟩, rfl⟩,
    ?_, ?_⟩
  · rw [lbg2_getElem?_eq (by norm_num), if_neg (by norm_num)]
  · rw [ubg2_getElem?_eq (by norm_num)]
    norm_num
  · rw [lbg2_getElem?_eq (by norm_num), if_neg (by norm_num)]
  · rw [ubg2_getElem?_eq (by norm_num)]
    norm_num
  · rw [lbg2_getElem?_eq (by norm_num), if_neg (by norm_num)]
  · rw [ubg2_getElem?_eq (by norm_num)]
    norm_num
  · rw [orbital_vel, mul_comm sun_mass grav_const]
  · intro xv xv' uv uv' hagree
    have hnode : ∀ m, m < 4 → node2 N2 xv m = node2 N2 xv' m := by
      intro m hm
      simp only [node2]
      exact hagree m (by simpa [sd2_eq] using hm)
    refine ⟨?_, ?_, ?_⟩
    · simp only [vRow2]
      congr 1
      refine normR_congr fun c hc => ?_
      exact hnode (n_body * dimension2 + c)
        (by simp only [n_body, dimension2] at hc ⊢; omega)
    · simp only [vpRow2, dotR]
      refine Finset.sum_congr rfl fun c hc => ?_
      have hc2 : c < 2 := by simpa [dimension2] using hc
      rw [hnode (n_body * dimension2 + c)
          (by simp only [n_body, dimension2]; omega),
        hnode c (by omega)]
    · simp only [pRow2]
      congr 1
      refine normR_congr fun c hc => ?_
      exact hnode c (by simp only [dimension2] at hc; omega)
  · intro xv xv' uv uv' hagree
    have hnode : ∀ m, m < 6 → node3 N3 xv m = node3 N3 xv' m := by
      intro m hm
      simp only [node3]
      exact hagree m (by simpa [sd3_eq] using hm)
    refine ⟨?_, ?_, ?_, ?_, ?_⟩
    · simp only [vRow3]
      congr 1
      refine normR_congr fun c hc => ?_
      exact hnode (n_body * dimension3 + c)
        (by simp only [n_body, dimension3] at hc ⊢; omega)
    · simp only [vpRow3, dotR]
      refine Finset.sum_congr rfl fun c hc => ?_
      have hc3 : c < 3 := by simpa [dimension3] using hc
      rw [hnode (n_body * dimension3 + c)
          (by simp only [n_body, dimension3]; omega),
        hnode c (by omega)]
    · simp only [vnRow3]
      refine Finset.sum_congr rfl fun c _ => ?_
      have hc3 := c.isLt
      rw [hnode (n_body * dimension3 + c)
          (by simp only [n_body, dimension3]; omega)]
    · simp only [pnRow3]
      refine Finset.sum_congr rfl fun c _ => ?_
      have hc3 := c.isLt
      rw [hnode c (by omega)]
    · simp only [pRow3]
      congr 1
      refine normR_congr fun c hc => ?_
      exact hnode c (by simp only [dimension3] at hc; omega)

/-- Witness for C9: the terminal rows are unchanged when the controls and
the pre-terminal state nodes change. -/
theorem terminal_rows_witness :
    vRow2 (fun _ => 0) (fun _ => 0) = vRow2 (fun _ => 0) (fun _ => 1) ∧
    vRow3 (fun _ => 0) (fun _ => 0) = vRow3 (fun _ => 0) (fun _ => 1) :=
  ⟨(terminal_rows.2.2.1 (fun _ => 0) (fun _ => 0) (fun _ => 0) (fun _ => 1)
      (fun m _ => rfl)).1,
   (terminal_rows.2.2.2 (fun _ => 0) (fun _ => 0) (fun _ => 0) (fun _ => 1)
      (fun m _ => rfl)).1⟩

end Rocket
